import Mathlib

/-!
Shallow embedding of the founder-movement tracking core
(`src/services/change_detector.py`, `src/services/profile_service.py`,
`src/services/insight_generator.py`, `src/api/openai_api.py`,
`src/api/session_storage.py`, `src/models/profile.py`, `src/models/change.py`,
`src/utils/helpers.py`, `src/utils/validators.py`, `config/settings.py`)
together with proofs about the change-detection / classification /
orchestration pipeline.

Conventions of the embedding:
* Python strings are Lean `String`; all string algorithms are written over
  `String.data` (`List Char`) so that every definition evaluates by `decide`.
  Lowercasing models CPython `str.lower` on ASCII text.
* Python dictionaries with a fixed key set are Lean structures.  Keys that the
  modelled code never reads (presentation-only fields such as `headline`,
  `location`, `profile_pic_url`, `raw_data`) are omitted.
* A value read from provider JSON whose runtime type is unconstrained is
  modelled by `PyNumVal` (absent / int / string), with Python truthiness and
  `int(...)` conversion made explicit.
* Code that can raise is embedded in the `PyRes` monad; `PyRes.exn` is a
  raised exception (the modelled services catch all exceptions, so the
  carried message is irrelevant and not tracked).
* `datetime.now().isoformat()` is an explicit `now : String` parameter.
-/

/-- Result monad embedding Python code that may raise. -/
inductive PyRes (α : Type) where
  | ok (a : α)
  | exn
deriving DecidableEq, Repr

def PyRes.bind {α β : Type} : PyRes α → (α → PyRes β) → PyRes β
  | .ok a, f => f a
  | .exn, _ => .exn

instance : Monad PyRes where
  pure := PyRes.ok
  bind := PyRes.bind

def PyRes.isOk {α : Type} : PyRes α → Bool
  | .ok _ => true
  | .exn => false

/-! ### Character/string primitives (models of CPython string operations) -/

/-- ASCII model of `str.lower` on a single character. -/
def lowerChar (c : Char) : Char := Char.toLower c

/-- `s.lower()` as a character list. -/
def lowerData (s : String) : List Char := s.data.map lowerChar

/-- List-prefix test (used to build the `in` substring test). -/
def isPre : List Char → List Char → Bool
  | [], _ => true
  | _ :: _, [] => false
  | a :: as, b :: bs => a == b && isPre as bs

/-- Python `p in l` substring containment on character lists:
`subOf p l` is true iff `p` occurs contiguously inside `l`
(the empty pattern is contained in everything). -/
def subOf (p : List Char) : List Char → Bool
  | [] => p.isEmpty
  | c :: t => isPre p (c :: t) || subOf p t

/-- Whitespace class of `str.strip()` (ASCII subset). -/
def isSpaceChar (c : Char) : Bool :=
  c == ' ' || c == '\t' || c == '\n' || c == '\r'

/-- Python `s.strip()`. -/
def pyStrip (s : String) : String :=
  String.mk (((s.data.dropWhile isSpaceChar).reverse.dropWhile isSpaceChar).reverse)

def splitCommaAux : List Char → List Char → List (List Char)
  | [], acc => [acc.reverse]
  | c :: rest, acc =>
      if c == ',' then acc.reverse :: splitCommaAux rest []
      else splitCommaAux rest (c :: acc)

/-- Python `s.split(",")`. -/
def splitComma (s : String) : List String :=
  (splitCommaAux s.data []).map String.mk

/-! ### Decimal integers: models of `str(int)` and `int(str)` -/

/-- Digit character for `n < 10` (used least-significant first below). -/
def digitChar : Nat → Char
  | 0 => '0' | 1 => '1' | 2 => '2' | 3 => '3' | 4 => '4'
  | 5 => '5' | 6 => '6' | 7 => '7' | 8 => '8' | _ => '9'

/-- Decimal digits, least significant first, by structural recursion on a
fuel bound (`fuel ≥ n` suffices; structural recursion keeps the definition
kernel-reducible). -/
def natToRevDigitsFuel : Nat → Nat → List Char
  | 0, n => [digitChar n]
  | fuel + 1, n =>
      if n < 10 then [digitChar n]
      else digitChar (n % 10) :: natToRevDigitsFuel fuel (n / 10)

/-- Decimal digits of `n`, least significant first. -/
def natToRevDigits (n : Nat) : List Char := natToRevDigitsFuel n n

theorem natToRevDigitsFuel_irrel :
    ∀ f1 n, n ≤ f1 → ∀ f2, n ≤ f2 → natToRevDigitsFuel f1 n = natToRevDigitsFuel f2 n := by
  intro f1
  induction f1 with
  | zero =>
      intro n hn f2 _
      interval_cases n
      cases f2
      all_goals simp [natToRevDigitsFuel]
  | succ f ih =>
      intro n hn f2 hn2
      by_cases h10 : n < 10
      · cases f2 with
        | zero =>
            interval_cases n
            all_goals simp [natToRevDigitsFuel]
        | succ g => simp [natToRevDigitsFuel, h10]
      · cases f2 with
        | zero => omega
        | succ g =>
            have hdf : n / 10 ≤ f := by omega
            have hdg : n / 10 ≤ g := by omega
            simp only [natToRevDigitsFuel, h10, if_false]
            rw [ih (n / 10) hdf g hdg]

theorem natToRevDigits_eq (n : Nat) :
    natToRevDigits n =
      if n < 10 then [digitChar n]
      else digitChar (n % 10) :: natToRevDigits (n / 10) := by
  by_cases h10 : n < 10
  · cases n with
    | zero => simp [natToRevDigits, natToRevDigitsFuel, h10]
    | succ m => simp [natToRevDigits, natToRevDigitsFuel, h10]
  · have hn : 10 ≤ n := by omega
    cases n with
    | zero => omega
    | succ m =>
        simp only [natToRevDigits, natToRevDigitsFuel, h10, if_false]
        have h1 : (m + 1) / 10 ≤ m := by omega
        rw [natToRevDigitsFuel_irrel m ((m + 1) / 10) h1 ((m + 1) / 10) (le_refl _)]

/-- Model of Python `str(i)` for an `int`. -/
def pyStrOfInt (i : Int) : String :=
  if i < 0 then String.mk ('-' :: (natToRevDigits i.natAbs).reverse)
  else String.mk ((natToRevDigits i.natAbs).reverse)

def digitVal (c : Char) : Nat := c.toNat - 48

def parseDigitsAcc : List Char → Nat → Option Nat
  | [], acc => some acc
  | c :: rest, acc =>
      if c.isDigit then parseDigitsAcc rest (acc * 10 + digitVal c) else none

def parseNatData : List Char → Option Nat
  | [] => none
  | c :: rest => parseDigitsAcc (c :: rest) 0

/-- Model of Python `int(s)` on signed decimal strings (`None` = `ValueError`).
(Python additionally tolerates surrounding whitespace, a leading `+` and digit
group underscores; none of those shapes are produced or consumed by the
modelled code.) -/
def pyParseInt (s : String) : Option Int :=
  match s.data with
  | [] => none
  | c :: rest =>
      if c == '-' then
        match parseNatData rest with
        | some n => some (-(n : Int))
        | none => none
      else
        match parseNatData (c :: rest) with
        | some n => some ((n : Int))
        | none => none

theorem digitChar_isDigit {n : Nat} (h : n < 10) : (digitChar n).isDigit = true := by
  interval_cases n <;> decide

theorem digitVal_digitChar {n : Nat} (h : n < 10) : digitVal (digitChar n) = n := by
  interval_cases n <;> decide

theorem natToRevDigits_ne_nil (n : Nat) : natToRevDigits n ≠ [] := by
  rw [natToRevDigits_eq]
  split <;> simp

theorem parseDigitsAcc_append_some (l : List Char) (c : Char) (acc v : Nat)
    (h : parseDigitsAcc l acc = some v) (hc : c.isDigit = true) :
    parseDigitsAcc (l ++ [c]) acc = some (v * 10 + digitVal c) := by
  induction l generalizing acc with
  | nil =>
      simp only [parseDigitsAcc, Option.some.injEq] at h
      subst h
      simp [parseDigitsAcc, hc]
  | cons a as ih =>
      simp only [parseDigitsAcc] at h
      by_cases ha : a.isDigit
      · simp only [ha, if_true] at h
        simp only [List.cons_append, parseDigitsAcc, ha, if_true]
        exact ih _ h
      · simp [ha] at h

theorem parseDigitsAcc_revDigits (n : Nat) :
    ∀ acc : Nat, parseDigitsAcc ((natToRevDigits n).reverse) acc =
      some (acc * 10 ^ (natToRevDigits n).length + n) := by
  induction n using Nat.strong_induction_on with
  | _ n ih =>
      intro acc
      rw [natToRevDigits_eq]
      split
      · next h =>
          simp [parseDigitsAcc, digitChar_isDigit h, digitVal_digitChar h]
      · next h =>
          have hd : n / 10 < n := Nat.div_lt_self (by omega) (by omega)
          have h10 : (digitChar (n % 10)).isDigit = true :=
            digitChar_isDigit (Nat.mod_lt _ (by omega))
          have hv : digitVal (digitChar (n % 10)) = n % 10 :=
            digitVal_digitChar (Nat.mod_lt _ (by omega))
          rw [List.reverse_cons,
            parseDigitsAcc_append_some _ _ _ _ (ih (n / 10) hd acc) h10, hv,
            List.length_cons, pow_succ, ← mul_assoc]
          congr 1
          have := Nat.div_add_mod n 10
          omega

theorem parseNatData_revDigits (n : Nat) :
    parseNatData ((natToRevDigits n).reverse) = some n := by
  have hne : (natToRevDigits n).reverse ≠ [] := by
    intro h
    exact natToRevDigits_ne_nil n (by simpa using congrArg List.reverse h)
  rcases hrev : (natToRevDigits n).reverse with _ | ⟨c, rest⟩
  · exact absurd hrev hne
  · have := parseDigitsAcc_revDigits n 0
    rw [hrev] at this
    simp [parseNatData, this]

theorem digitChar_ne_dash {n : Nat} : digitChar n ≠ '-' := by
  unfold digitChar
  split <;> decide

theorem natToRevDigits_head_ne_dash (n : Nat) (c : Char) (rest : List Char)
    (h : (natToRevDigits n).reverse = c :: rest) : (c == '-') = false := by
  have hc : c ∈ natToRevDigits n := by
    have : c ∈ (natToRevDigits n).reverse := by simp [h]
    simpa using this
  have : ∀ m, ∀ d ∈ natToRevDigits m, ∃ k, d = digitChar k := by
    intro m
    induction m using Nat.strong_induction_on with
    | _ m ih =>
        intro d hd
        rw [natToRevDigits_eq] at hd
        split at hd
        · simp at hd
          exact ⟨_, hd⟩
        · next hm =>
            rcases List.mem_cons.mp hd with h1 | h2
            · exact ⟨_, h1⟩
            · exact ih (m / 10) (Nat.div_lt_self (by omega) (by omega)) d h2

  rcases this n c hc with ⟨k, hk⟩
  subst hk
  exact beq_false_of_ne digitChar_ne_dash

theorem pyParseInt_pyStrOfInt (i : Int) : pyParseInt (pyStrOfInt i) = some i := by
  by_cases hneg : i < 0
  · have h1 : pyStrOfInt i = String.mk ('-' :: (natToRevDigits i.natAbs).reverse) := by
      simp [pyStrOfInt, hneg]
    rw [h1]
    simp only [pyParseInt, beq_self_eq_true, if_true, parseNatData_revDigits]
    congr 1
    omega
  · have h1 : pyStrOfInt i = String.mk ((natToRevDigits i.natAbs).reverse) := by
      simp [pyStrOfInt, hneg]
    rcases hrev : (natToRevDigits i.natAbs).reverse with _ | ⟨c, rest⟩
    · exact absurd (by simpa using congrArg List.reverse hrev) (natToRevDigits_ne_nil i.natAbs)
    · rw [h1, hrev]
      simp only [pyParseInt, natToRevDigits_head_ne_dash i.natAbs c rest hrev,
        Bool.false_eq_true, if_false]
      rw [← hrev]
      simp only [parseNatData_revDigits, Option.some.injEq]
      omega

theorem pyStrOfInt_ne_empty (i : Int) : pyStrOfInt i ≠ ("") := by
  intro h
  have hdata := congrArg String.data h
  unfold pyStrOfInt at hdata
  split at hdata
  · simp at hdata
  · have : (natToRevDigits i.natAbs).reverse = [] := by simpa using hdata
    exact natToRevDigits_ne_nil i.natAbs (by simpa using congrArg List.reverse this)

/-! ### Values read from provider JSON -/

/-- A numeric/date field of a provider experience record: the key may be
absent, or hold an int, or hold a string (possibly non-numeric). -/
inductive PyNumVal where
  | absent
  | intv (n : Int)
  | strv (s : String)
deriving DecidableEq, Repr

/-- Python truthiness of such a value (`exp.get(k)` yields `None` when absent). -/
def PyNumVal.truthy : PyNumVal → Bool
  | .absent => false
  | .intv n => n != 0
  | .strv s => s != ("")

/-- Python `int(v)`: identity on ints, decimal parse on strings
(`ValueError` when non-numeric), `TypeError` on `None`. -/
def PyNumVal.toIntE : PyNumVal → PyRes Int
  | .absent => .exn
  | .intv n => .ok n
  | .strv s =>
      match pyParseInt s with
      | some n => .ok n
      | none => .exn

/-! ### Data model: profiles, experiences, raw provider records -/

/-- The processed-profile dictionary built by
`ProfileService.process_linkedin_profile` and stored by `SessionStorage`
(presentation-only keys — `headline`, `summary`, `location`, `country`,
`skills`, `profile_pic_url`, `follower_count`, `raw_data` — are never read by
the modelled logic and are omitted). -/
structure PDict where
  linkedin_url : String
  first_name : String
  last_name : String
  full_name : String
  current_title : String
  current_company : String
  previous_title : String
  previous_company : String
  last_checked_date : String
  tracking_status : String
  outreach_status : String
deriving DecidableEq, Repr

/-- One entry of the provider's `experiences` list.  `is_current` is the
truthiness of `exp.get("is_current")`; `title`/`company` are
`exp.get(k, "")`. -/
structure Experience where
  is_current : Bool
  title : String
  company : String
  end_year : PyNumVal
  end_month : PyNumVal
  start_year : PyNumVal
  start_month : PyNumVal
deriving DecidableEq, Repr

/-- A raw provider record, restricted to the keys the modelled code reads.
`error`/`message` model presence of those keys (`"error" in profile_data`);
`first_name`, `last_name`, `job_title`, `company` are `get(k, "")`;
`full_name` is `None` when the key is absent (its default is computed). -/
structure RawRecord where
  error : Option String
  message : Option String
  first_name : String
  last_name : String
  job_title : String
  company : String
  full_name : Option String
  experiences : List Experience
deriving DecidableEq, Repr

/-! ### Keyword heuristics (`src/utils/helpers.py`, `config/settings.py`,
`src/models/profile.py`, `src/services/change_detector.py`) -/

/-- `Settings.FOUNDER_KEYWORDS` default (no `FOUNDER_KEYWORDS` env override). -/
def FOUNDER_KEYWORDS_default : String :=
  "Founder,Co-founder,CEO,Chief Executive Officer,Entrepreneur,Creator,Stealth,Building"

/-- `Settings.get_founder_keywords()`. -/
def settings_get_founder_keywords : List String :=
  (splitComma FOUNDER_KEYWORDS_default).map pyStrip

/-- `helpers.detect_founder_keywords(text, keywords)`. -/
def detect_founder_keywords (text : String) (keywords : List String) : Bool :=
  if text == ("") || keywords.isEmpty then false
  else keywords.any (fun keyword => subOf (lowerData keyword) (lowerData text))

/-- Stealth-mode keyword list of `ChangeDetector.is_founder_change`. -/
def stealth_keywords : List String :=
  [("stealth"), ("building"), ("launching"), ("starting"), ("startup")]

/-- `ChangeDetector.is_founder_change(profile_data)`. -/
def is_founder_change (profile_data : PDict) : Bool :=
  if detect_founder_keywords profile_data.current_title settings_get_founder_keywords then true
  else if detect_founder_keywords profile_data.current_title stealth_keywords
      || detect_founder_keywords profile_data.current_company stealth_keywords then true
  else false

/-- Hardcoded founder keyword list of `Profile.is_founder`. -/
def profile_founder_keywords : List String :=
  [("founder"), ("co-founder"), ("cofounder"), ("ceo"), ("chief executive"),
   ("owner"), ("entrepreneur"), ("creator")]

/-- Hardcoded stealth keyword list of `Profile.is_founder`. -/
def profile_stealth_keywords : List String :=
  [("stealth"), ("building"), ("launching"), ("starting")]

/-- `Profile.is_founder(self)` — title-only keyword scan. -/
def profile_is_founder (p : PDict) : Bool :=
  if p.current_title == ("") then false
  else
    let title_lower := lowerData p.current_title
    profile_founder_keywords.any (fun keyword => subOf keyword.data title_lower)
      || profile_stealth_keywords.any (fun keyword => subOf keyword.data title_lower)

/-- `Profile.has_changed_roles(self, previous_data)`.  `previous_data` is a
stored profile dictionary; such dictionaries are never empty, so the
`if not previous_data` guard of the source cannot fire here. -/
def has_changed_roles (self : PDict) (previous_data : PDict) : Bool :=
  (previous_data.current_title != self.current_title && self.current_title != (""))
    || (previous_data.current_company != self.current_company
        && self.current_company != (""))

/-! ### The Change model (`src/models/change.py`) -/

structure Change where
  change_id : Option Int
  linkedin_url : String
  old_title : String
  new_title : String
  old_company : String
  new_company : String
  detected_date : String
  is_founder_change : Bool
  ai_insight : String
  notification_sent : Bool
deriving DecidableEq, Repr

/-- `Change.__init__`: `detected_date or datetime.now().isoformat()` defaults
a `None` or empty date to `now`. -/
def Change.make (now linkedin_url old_title new_title old_company new_company : String)
    (detected_date : Option String) (is_founder : Bool) (ai_insight : String)
    (notification_sent : Bool) (change_id : Option Int) : Change :=
  { change_id := change_id, linkedin_url := linkedin_url, old_title := old_title,
    new_title := new_title, old_company := old_company, new_company := new_company,
    detected_date :=
      match detected_date with
      | some d => if d == ("") then now else d
      | none => now,
    is_founder_change := is_founder, ai_insight := ai_insight,
    notification_sent := notification_sent }

/-- A change dictionary (`Change.to_dict` output and `SessionStorage` row).
`is_founder_change` / `notification_sent` values may be bools or strings in a
raw dictionary; `change_id` may be absent, an int (assigned by
`SessionStorage.record_change`) or a string (emitted by `Change.to_dict`). -/
inductive PyBoolVal where
  | absent
  | boolv (b : Bool)
  | strv (s : String)
deriving DecidableEq, Repr

inductive PyIdVal where
  | absent
  | intv (n : Int)
  | strv (s : String)
deriving DecidableEq, Repr

structure ChangeDict where
  linkedin_url : Option String
  old_title : Option String
  new_title : Option String
  old_company : Option String
  new_company : Option String
  detected_date : Option String
  is_founder_change : PyBoolVal
  ai_insight : Option String
  notification_sent : PyBoolVal
  change_id : PyIdVal
deriving DecidableEq, Repr

/-- `str(b).lower()` for a Python bool. -/
def pyBoolStr (b : Bool) : String := if b then ("true") else ("false")

/-- `Change.to_dict(self)`. -/
def Change.to_dict (c : Change) : ChangeDict :=
  { linkedin_url := some c.linkedin_url, old_title := some c.old_title,
    new_title := some c.new_title, old_company := some c.old_company,
    new_company := some c.new_company, detected_date := some c.detected_date,
    is_founder_change := .strv (pyBoolStr c.is_founder_change),
    ai_insight := some c.ai_insight,
    notification_sent := .strv (pyBoolStr c.notification_sent),
    change_id :=
      match c.change_id with
      | none => .absent
      | some n => .strv (pyStrOfInt n) }

def PyIdVal.truthy : PyIdVal → Bool
  | .absent => false
  | .intv n => n != 0
  | .strv s => s != ("")

/-- `try: int(v) except (ValueError, TypeError): None`. -/
def pyIdToIntOpt : PyIdVal → Option Int
  | .absent => none
  | .intv n => some n
  | .strv s => pyParseInt s

/-- `v.lower() == 'true'` / bool passthrough / absent defaults to `False`
(`Change.from_dict` conversion for the two boolean fields). -/
def pyBoolOfVal : PyBoolVal → Bool
  | .absent => false
  | .boolv b => b
  | .strv s => String.mk (lowerData s) == ("true")

/-- `Change.from_dict(data)`. -/
def Change.from_dict (now : String) (data : ChangeDict) : Change :=
  let change_id : Option Int :=
    if data.change_id.truthy then pyIdToIntOpt data.change_id else none
  Change.make now (data.linkedin_url.getD ("")) (data.old_title.getD (""))
    (data.new_title.getD ("")) (data.old_company.getD (""))
    (data.new_company.getD ("")) data.detected_date
    (pyBoolOfVal data.is_founder_change) (data.ai_insight.getD (""))
    (pyBoolOfVal data.notification_sent) change_id

/-- `Change.from_profile_comparison`. -/
def Change.from_profile_comparison (now linkedin_url : String)
    (old_profile new_profile : PDict) (is_founder : Bool) (ai_insight : String) : Change :=
  Change.make now linkedin_url old_profile.current_title new_profile.current_title
    old_profile.current_company new_profile.current_company none is_founder ai_insight
    false none

/-! ### Change detection (`ChangeDetector.detect_change`) -/

/-- `ChangeDetector.detect_change(old_profile, new_profile)`.  `old_profile`
is `None` or a stored profile dictionary; canonical profile dictionaries are
non-empty, hence truthy, so `Option` captures the `if not old_profile` guard
(and `new_profile`, always a freshly processed dictionary, is truthy). -/
def detect_change (now : String) (old_profile : Option PDict) (new_profile : PDict) :
    Option Change :=
  match old_profile with
  | none => none
  | some old =>
      let linkedin_url := new_profile.linkedin_url
      let title_changed := old.current_title != new_profile.current_title
        && new_profile.current_title != ("")
      let company_changed := old.current_company != new_profile.current_company
        && new_profile.current_company != ("")
      if !(title_changed || company_changed) then none
      else
        some (Change.make now linkedin_url old.current_title new_profile.current_title
          old.current_company new_profile.current_company none
          (is_founder_change new_profile) ("") false none)

/-! ### URL validation (`src/utils/validators.py`) -/

/-- Character class `[\w\-_]` of the URL pattern (ASCII model of `\w`). -/
def isIdChar (c : Char) : Bool := c.isAlpha || c.isDigit || c == '_' || c == '-'

/-- Strip a literal pattern from the front of the input, or fail. -/
def dropLit : List Char → List Char → Option (List Char)
  | [], l => some l
  | _ :: _, [] => none
  | p :: ps, c :: cs => if c == p then dropLit ps cs else none

/-- `validators.validate_linkedin_url(url)`: model of
`re.match(r'^https?://(www\.)?linkedin\.com/in/[\w\-_]+/?$', url)`. -/
def validate_linkedin_url (url : String) : Bool :=
  if url == ("") then false
  else
    match
      (match dropLit ("https://").data url.data with
       | some r => some r
       | none => dropLit ("http://").data url.data) with
    | none => false
    | some afterScheme =>
        let afterHost :=
          match dropLit ("www.").data afterScheme with
          | some r => r
          | none => afterScheme
        match dropLit ("linkedin.com/in/").data afterHost with
        | none => false
        | some tail =>
            let ident := tail.takeWhile isIdChar
            let trailing := tail.dropWhile isIdChar
            !ident.isEmpty && (trailing.isEmpty || trailing == ['/'])

/-! ### Profile normalization (`ProfileService.process_linkedin_profile`) -/

/-- One component of the past-experience sort key:
`int(end) if end else (int(start) if start else 0)`. -/
def numKeyComponent (endv startv : PyNumVal) : PyRes Int :=
  if endv.truthy then endv.toIntE
  else if startv.truthy then startv.toIntE
  else .ok 0

/-- The two-component sort key
`(end_year|start_year|0, end_month|start_month|0)` of one experience. -/
def expKey (e : Experience) : PyRes (Int × Int) := do
  let y ← numKeyComponent e.end_year e.start_year
  let m ← numKeyComponent e.end_month e.start_month
  pure (y, m)

/-- Lexicographic order on sort keys (Python tuple comparison). -/
def keyLe (a b : Int × Int) : Bool :=
  if a.1 < b.1 then true
  else if a.1 = b.1 then decide (a.2 ≤ b.2)
  else false

/-- Stable insertion step for a descending sort: `x` goes in front of the
first element whose key is ≤ its own. -/
def insertDescBy {α : Type} (key : α → Int × Int) (x : α) : List α → List α
  | [] => [x]
  | y :: ys => if keyLe (key y) (key x) then x :: y :: ys else y :: insertDescBy key x ys

/-- Stable descending sort.  CPython `sorted(l, key=key, reverse=True)` is a
stable sort by descending key; any two stable sorts under the same total
preorder return the same list, so this insertion sort computes exactly the
source's `sorted(...)` result. -/
def sortDescBy {α : Type} (key : α → Int × Int) : List α → List α
  | [] => []
  | x :: xs => insertDescBy key x (sortDescBy key xs)

/-- The decorate pass of `sorted(past_experiences, key=..., reverse=True)`:
CPython computes every element's key, in list order, before comparing, so a
`ValueError` from `int(...)` propagates from here. -/
def computeKeys : List Experience → PyRes (List ((Int × Int) × Experience))
  | [] => .ok []
  | e :: rest => do
      let k ← expKey e
      let ks ← computeKeys rest
      pure ((k, e) :: ks)

/-- `sorted(past_experiences, key=..., reverse=True)`. -/
def sortPastExperiences (past_experiences : List Experience) : PyRes (List Experience) := do
  let keyed ← computeKeys past_experiences
  pure ((sortDescBy Prod.fst keyed).map Prod.snd)

/-- `[exp for exp in experiences if not exp.get("is_current")]`. -/
def past_experiences_of (profile_data : RawRecord) : List Experience :=
  profile_data.experiences.filter (fun e => !e.is_current)

/-- The previous-role selection block of `process_linkedin_profile`:
sort the non-current experiences by descending key and take the head. -/
def select_previous (past_experiences : List Experience) : PyRes (String × String) :=
  if past_experiences.isEmpty then .ok ((""), (""))
  else do
    let sorted_past ← sortPastExperiences past_experiences
    match sorted_past with
    | [] => .ok ((""), (""))
    | most_recent_past_exp :: _ =>
        .ok (most_recent_past_exp.title, most_recent_past_exp.company)

/-- `ProfileService.process_linkedin_profile(linkedin_url, profile_data)`.
The current role comes from the top-level `job_title` / `company` keys; the
experience list is consulted only for the previous role.  The source's
`if not processed_profile` caller check is dead (the dictionary below is
always non-empty). -/
def process_linkedin_profile (linkedin_url : String) (profile_data : RawRecord)
    (now : String) : PyRes PDict := do
  let first_name := profile_data.first_name
  let last_name := profile_data.last_name
  let current_title := profile_data.job_title
  let current_company := profile_data.company
  let previous ← select_previous (past_experiences_of profile_data)
  pure {
    linkedin_url := linkedin_url,
    first_name := first_name,
    last_name := last_name,
    full_name :=
      match profile_data.full_name with
      | some fn => fn
      | none => pyStrip (first_name ++ (" ") ++ last_name),
    current_title := current_title,
    current_company := current_company,
    previous_title := previous.1,
    previous_company := previous.2,
    last_checked_date := now,
    tracking_status := ("Active"),
    outreach_status := ("Not contacted") }

/-! ### Insight generation (`src/api/openai_api.py`,
`src/services/insight_generator.py`) -/

/-- `self.api_key` configuration of `OpenAIAPI` plus the module-level
`OPENAI_AVAILABLE` flag. -/
structure OpenAIConfig where
  api_key : Option String
  available : Bool
deriving DecidableEq, Repr

def optStrTruthy : Option String → Bool
  | none => false
  | some s => s != ("")

/-- The four `mock_insights` template strings (profile keys are always
present in processed dictionaries, so the `get(k, default)` fallbacks of the
source never fire here). -/
def mock_insights (p : PDict) : List String :=
  [p.first_name ++ ("\x27s background as ") ++ p.previous_title ++ (" at ")
     ++ p.previous_company ++ (" provides valuable industry expertise for ")
     ++ p.current_company
     ++ (", making them a promising founder to connect with for early-stage investment."),
   ("With experience at ") ++ p.previous_company ++ (" and a transition to building ")
     ++ p.current_company ++ (", ") ++ p.first_name
     ++ (" brings domain knowledge and entrepreneurial drive that could lead to strong investment returns."),
   p.first_name ++ ("\x27s founder journey at ") ++ p.current_company
     ++ (" leverages their ") ++ p.previous_company
     ++ (" experience, suggesting market-informed innovation worth exploring for pre-seed investment."),
   ("Having made the leap from ") ++ p.previous_company ++ (" to founding ")
     ++ p.current_company ++ (", ") ++ p.first_name
     ++ (" demonstrates both industry expertise and entrepreneurial ambition needed for startup success.")]

/-- `sum(ord(c) for c in s)`. -/
def ordSum (s : String) : Nat := (s.data.map Char.toNat).sum

/-- Mock-template index: hash of first+last name modulo the template count. -/
def mock_index (first_name last_name : String) : Nat :=
  let name_str := first_name ++ last_name
  if name_str == ("") then 0 else ordSum name_str % 4

/-- `OpenAIAPI.generate_founder_insight(profile_data, change_data)`.
`api_response` is the text-generation collaborator's outcome (its response
content, or a raised exception); `change_data` only feeds the prompt, which
does not influence the returned value in the fallback paths, so it is not a
parameter here. -/
def openai_generate_founder_insight (cfg : OpenAIConfig) (api_response : PyRes String)
    (profile_data : PDict) : String :=
  let mock_insight := (mock_insights profile_data).getD
    (mock_index profile_data.first_name profile_data.last_name) ("")
  if !(optStrTruthy cfg.api_key) || !cfg.available then mock_insight
  else
    match api_response with
    | .ok content => pyStrip content
    | .exn => mock_insight

/-! ### Session storage (`src/api/session_storage.py`) -/

structure Storage where
  profiles : List PDict
  changes : List ChangeDict
deriving DecidableEq, Repr

/-- `SessionStorage.get_profile(linkedin_url)`. -/
def get_profile (st : Storage) (linkedin_url : String) : Option PDict :=
  st.profiles.find? (fun p => p.linkedin_url == linkedin_url)

/-- Replace the first matching element (`profiles[index] = profile_data`
after `index = profiles.index(existing[0])`). -/
def replaceFirst {α : Type} (pred : α → Bool) (x : α) : List α → List α
  | [] => []
  | y :: ys => if pred y then x :: ys else y :: replaceFirst pred x ys

/-- `SessionStorage.add_profile(profile_data)` (always returns `True`). -/
def storage_add_profile (st : Storage) (profile_data : PDict) (now : String) : Storage :=
  let linkedin_url := profile_data.linkedin_url
  let updated := { profile_data with last_checked_date := now }
  let fresh := { profile_data with
    last_checked_date := now,
    tracking_status := ("Active"),
    outreach_status := ("Not contacted") }
  if st.profiles.any (fun p => p.linkedin_url == linkedin_url) then
    { st with profiles := replaceFirst (fun p => p.linkedin_url == linkedin_url) updated st.profiles }
  else
    { st with profiles := st.profiles ++ [fresh] }

/-- `int(c.get("change_id", 0))` for one stored change row. -/
def pyIdToIntE : PyIdVal → PyRes Int
  | .absent => .ok 0
  | .intv n => .ok n
  | .strv s =>
      match pyParseInt s with
      | some n => .ok n
      | none => .exn

/-- `max(change_ids, default=0)`. -/
def pyMaxDefault0 : List Int → Int
  | [] => 0
  | x :: xs => xs.foldl max x

/-- The list comprehension `[int(c.get("change_id", 0)) for c in changes]`
(left to right; the first malformed id raises). -/
def collectChangeIds : List ChangeDict → PyRes (List Int)
  | [] => .ok []
  | c :: rest => do
      let i ← pyIdToIntE c.change_id
      let is ← collectChangeIds rest
      pure (i :: is)

/-- `SessionStorage.record_change(change_data)` (appends; assigns the next
numeric id when the row carries none; defaults a missing detection date). -/
def record_change (st : Storage) (change_data : ChangeDict) (now : String) :
    PyRes Storage := do
  let change_data ←
    if change_data.change_id = PyIdVal.absent then do
      let change_ids ← collectChangeIds st.changes
      pure { change_data with change_id := PyIdVal.intv (pyMaxDefault0 change_ids + 1) }
    else pure change_data
  let change_data :=
    if change_data.detected_date = none then { change_data with detected_date := some now }
    else change_data
  pure { st with changes := st.changes ++ [change_data] }

/-- Result of `InsightGenerator.generate_founder_insight` together with the
storage and the (mutated) `Change` object. -/
structure InsightOut where
  st : Storage
  change : Change
  insight : String
deriving Repr

/-- `InsightGenerator.generate_founder_insight(change, profile_data)`:
requests the insight, mutates `change.ai_insight`, re-records the change row;
any exception is caught and turned into an `Unable to generate insight`
string (the mutation has already happened by then). -/
def insight_generate (cfg : OpenAIConfig) (api_response : PyRes String) (st : Storage)
    (change : Change) (profile_data : PDict) (now : String) : InsightOut :=
  let insight := openai_generate_founder_insight cfg api_response profile_data
  let change := { change with ai_insight := insight }
  match record_change st change.to_dict now with
  | .ok st2 => { st := st2, change := change, insight := insight }
  | .exn => { st := st, change := change, insight := ("Unable to generate insight") }

/-! ### Orchestrator (`src/services/profile_service.py`) -/

/-- Outcome of one `get_linkedin_profile_data(url)` call: either the
coroutine raises, or it returns a payload (`none` models a falsy payload). -/
inductive FetchResult where
  | raises (msg : String)
  | returns (data : Option RawRecord)
deriving DecidableEq, Repr

structure AddRes where
  st : Storage
  ok : Bool
  msg : String
deriving DecidableEq, Repr

/-- `ProfileService.add_profile(linkedin_url)`.  Exception text interpolated
into caught-error messages is not tracked (no claim inspects it). -/
def add_profile (st : Storage) (linkedin_url : String) (fetch : FetchResult)
    (now : String) : AddRes :=
  if !(validate_linkedin_url linkedin_url) then
    { st := st, ok := false, msg := ("Invalid LinkedIn URL: ") ++ linkedin_url }
  else
    match get_profile st linkedin_url with
    | some _ =>
        { st := st, ok := true,
          msg := ("Profile ") ++ linkedin_url ++ (" is already being tracked") }
    | none =>
        match fetch with
        | .raises _ => { st := st, ok := false, msg := ("Error adding profile: exception") }
        | .returns none =>
            { st := st, ok := false,
              msg := ("Error fetching profile: Empty response from API") }
        | .returns (some profile_data) =>
            match profile_data.error with
            | some _ =>
                { st := st, ok := false,
                  msg := ("Error fetching profile: ")
                    ++ profile_data.message.getD ("Unknown error from API") }
            | none =>
                match process_linkedin_profile linkedin_url profile_data now with
                | .exn =>
                    { st := st, ok := false, msg := ("Error adding profile: exception") }
                | .ok processed_profile =>
                    { st := storage_add_profile st processed_profile now, ok := true,
                      msg := ("Successfully added profile ") ++ linkedin_url
                        ++ (" to tracking") }

structure RefreshRes where
  st : Storage
  ok : Bool
  msg : String
  change : Option Change
deriving Repr

/-- `ProfileService.refresh_profile(linkedin_url)`.  The source's unused
`old_profile = Profile.from_dict(existing_profile)` is dead code;
`new_profile = Profile.from_dict(processed_profile)` reads exactly the
processed dictionary's fields, so `has_changed_roles` / `is_founder` are
applied to the processed dictionary directly.  A falsy fetch payload makes
`"error" in profile_data` raise `TypeError`, caught by the service. -/
def refresh_profile (cfg : OpenAIConfig) (st : Storage) (linkedin_url : String)
    (fetch : FetchResult) (api_response : PyRes String) (now : String) : RefreshRes :=
  if !(validate_linkedin_url linkedin_url) then
    { st := st, ok := false, msg := ("Invalid LinkedIn URL: ") ++ linkedin_url,
      change := none }
  else
    match get_profile st linkedin_url with
    | none =>
        let r := add_profile st linkedin_url fetch now
        { st := r.st, ok := r.ok, msg := r.msg, change := none }
    | some existing_profile =>
        match fetch with
        | .raises _ =>
            { st := st, ok := false, msg := ("Error refreshing profile: exception"),
              change := none }
        | .returns none =>
            { st := st, ok := false, msg := ("Error refreshing profile: exception"),
              change := none }
        | .returns (some profile_data) =>
            match profile_data.error with
            | some err =>
                { st := st, ok := false, msg := ("Error fetching profile: ") ++ err,
                  change := none }
            | none =>
                match process_linkedin_profile linkedin_url profile_data now with
                | .exn =>
                    { st := st, ok := false,
                      msg := ("Error refreshing profile: exception"), change := none }
                | .ok processed_profile =>
                    if has_changed_roles processed_profile existing_profile then
                      let is_founder := profile_is_founder processed_profile
                      let change := Change.from_profile_comparison now linkedin_url
                        existing_profile processed_profile is_founder ("")
                      match record_change st change.to_dict now with
                      | .exn =>
                          { st := st, ok := false,
                            msg := ("Error refreshing profile: exception"), change := none }
                      | .ok st1 =>
                          let st2 := storage_add_profile st1 processed_profile now
                          if is_founder then
                            let g := insight_generate cfg api_response st2 change
                              processed_profile now
                            { st := g.st, ok := true,
                              msg := ("Detected role change for ") ++ linkedin_url,
                              change := some g.change }
                          else
                            { st := st2, ok := true,
                              msg := ("Detected role change for ") ++ linkedin_url,
                              change := some change }
                    else
                      { st := storage_add_profile st processed_profile now, ok := true,
                        msg := ("No changes detected for ") ++ linkedin_url,
                        change := none }

structure RefreshOutcome where
  ok : Bool
  msg : String
  change : Option Change
deriving Repr

/-- The `asyncio.gather` phase of `batch_refresh_profiles`: the single-thread
event loop runs the refresh coroutines to completion; their storage effects
apply in task order.  Results are collected positionally, as `gather` does. -/
def run_refreshes (cfg : OpenAIConfig) (fetch : String → FetchResult)
    (api_response : String → PyRes String) (now : String) :
    Storage → List String → Storage × List RefreshOutcome
  | st, [] => (st, [])
  | st, url :: rest =>
      let r := refresh_profile cfg st url (fetch url) (api_response url) now
      let next := run_refreshes cfg fetch api_response now r.st rest
      (next.1, { ok := r.ok, msg := r.msg, change := r.change } :: next.2)

structure ChangeView where
  old_title : String
  new_title : String
  old_company : String
  new_company : String
  is_founder_change : Bool
deriving DecidableEq, Repr

def changeView (c : Change) : ChangeView :=
  { old_title := c.old_title, new_title := c.new_title, old_company := c.old_company,
    new_company := c.new_company, is_founder_change := c.is_founder_change }

structure RefreshDetail where
  url : String
  success : Bool
  message : String
  change_detected : Bool
  change : Option ChangeView
deriving Repr

structure BatchRefreshRes where
  success : Nat
  failed : Nat
  changes_detected : Nat
  founder_changes : Nat
  details : List RefreshDetail
deriving Repr

/-- The tallying loop of `batch_refresh_profiles`.  The source accumulates
counters front-to-back; addition of the per-item contributions is
commutative, so this right fold computes the same totals, and the detail
list is built in the same (input) order. -/
def tally_refresh : List (String × RefreshOutcome) → BatchRefreshRes
  | [] => { success := 0, failed := 0, changes_detected := 0, founder_changes := 0,
            details := [] }
  | (url, r) :: rest =>
      let acc := tally_refresh rest
      let founder := match r.change with
        | some c => c.is_founder_change
        | none => false
      { success := (if r.ok then 1 else 0) + acc.success,
        failed := (if r.ok then 0 else 1) + acc.failed,
        changes_detected := (if r.ok && r.change.isSome then 1 else 0) + acc.changes_detected,
        founder_changes := (if r.ok && founder then 1 else 0) + acc.founder_changes,
        details := { url := url, success := r.ok, message := r.msg,
                     change_detected := r.change.isSome,
                     change := r.change.map changeView } :: acc.details }

/-- `ProfileService.batch_refresh_profiles(linkedin_urls)`.  A `None` or
empty url list (both falsy) is replaced by the urls of all tracked
profiles. -/
def batch_refresh_profiles (cfg : OpenAIConfig) (fetch : String → FetchResult)
    (api_response : String → PyRes String) (now : String) (st : Storage)
    (linkedin_urls : List String) : Storage × BatchRefreshRes :=
  let urls :=
    if linkedin_urls.isEmpty then
      st.profiles.filterMap (fun p =>
        if p.linkedin_url == ("") then none else some p.linkedin_url)
    else linkedin_urls
  let ran := run_refreshes cfg fetch api_response now st urls
  (ran.1, tally_refresh (urls.zip ran.2))

/-! ### Spec-side selection rules (for refinement comparison)

The next definitions follow the specification's words, not the source; they
exist only to be compared against the source-derived definitions above. -/

/-- Spec wording (§4.3): the claimed default founder keyword list. -/
def spec_founder_keywords : List String :=
  [("founder"), ("co-founder"), ("cofounder"), ("ceo"), ("chief executive"),
   ("owner"), ("entrepreneur"), ("creator")]

/-- Spec wording (§4.3): the claimed stealth keyword list. -/
def spec_stealth_keywords : List String :=
  [("stealth"), ("building"), ("launching"), ("starting")]

/-- Spec wording (§4.3): founder classification as the specification states
it — claimed founder keywords against the new title, claimed stealth
keywords against the new title or company. -/
def spec_is_founder_change (p : PDict) : Bool :=
  spec_founder_keywords.any (fun k => subOf (lowerData k) (lowerData p.current_title))
    || spec_stealth_keywords.any (fun k =>
        subOf (lowerData k) (lowerData p.current_title)
          || subOf (lowerData k) (lowerData p.current_company))

/-- Missing-or-malformed-as-zero numeric read used by the spec wording. -/
def pyToIntOr0 (v : PyNumVal) : Int :=
  if v.truthy then
    match v.toIntE with
    | .ok n => n
    | .exn => 0
  else 0

/-- Spec wording (§4.2): an experience is open-ended (hence current) when
its end field is absent/null. -/
def spec_open_ended (e : Experience) : Bool :=
  !e.end_year.truthy && !e.end_month.truthy

def spec_start_key (e : Experience) : Int × Int :=
  (pyToIntOr0 e.start_year, pyToIntOr0 e.start_month)

/-- Spec wording (§4.2): current title — top-level field when supplied,
otherwise the open-ended experience entry with the most recent start date
(ties: first in list order). -/
def spec_current_title (r : RawRecord) : String :=
  if r.job_title != ("") then r.job_title
  else
    match sortDescBy spec_start_key (r.experiences.filter spec_open_ended) with
    | [] => ("")
    | e :: _ => e.title

/-- Spec wording (§4.2): the end date of an entry, with the fallback to the
start date taken only when the end date is absent; missing components read
as zero. -/
def spec_end_key (e : Experience) : Int × Int :=
  if e.end_year.truthy || e.end_month.truthy then
    (pyToIntOr0 e.end_year, pyToIntOr0 e.end_month)
  else spec_start_key e

/-- Spec wording (§4.2): previous title — the non-current entry with the
most recent end date under `spec_end_key`; `none` when no entry remains. -/
def spec_previous_title (r : RawRecord) : Option String :=
  match sortDescBy spec_end_key (past_experiences_of r) with
  | [] => none
  | e :: _ => some e.title

/-! ### Theorems: change detection (C1) -/

/-- C1.  `detect_change` yields a `Change` exactly under the claimed
condition: never when the old snapshot is `None`, and otherwise iff the
title changed to a non-empty value or the company changed to a non-empty
value. -/
theorem detect_change_characterization (now : String) (old_profile : Option PDict)
    (new_profile : PDict) :
    (detect_change now old_profile new_profile).isSome = true ↔
      ∃ old, old_profile = some old ∧
        ((old.current_title ≠ new_profile.current_title ∧ new_profile.current_title ≠ (""))
          ∨ (old.current_company ≠ new_profile.current_company
              ∧ new_profile.current_company ≠ (""))) := by
  cases old_profile with
  | none => simp [detect_change]
  | some old =>
      have hbool : (detect_change now (some old) new_profile).isSome =
          ((old.current_title != new_profile.current_title
              && new_profile.current_title != (""))
            || (old.current_company != new_profile.current_company
              && new_profile.current_company != (""))) := by
        simp only [detect_change]
        split
        · next hc =>
            rw [Bool.not_eq_true'] at hc
            simp [hc]
        · next hc =>
            simp only [Bool.not_eq_true, Bool.not_eq_false'] at hc
            simp [hc]
      rw [hbool]
      simp only [Bool.or_eq_true, Bool.and_eq_true, bne_iff_ne, ne_eq, Option.some.injEq]
      constructor
      · intro h
        exact ⟨old, rfl, h⟩
      · rintro ⟨o, ho, h⟩
        subst ho
        exact h

/-! ### Theorems: founder classification (C2) -/

def mkTitleProfile (t : String) : PDict :=
  { linkedin_url := (""), first_name := (""), last_name := (""), full_name := (""),
    current_title := t, current_company := (""), previous_title := (""),
    previous_company := (""), last_checked_date := (""), tracking_status := (""),
    outreach_status := ("") }

/-- C2 counterexample.  On title `"Owner"` the claim's keyword set
(`spec_is_founder_change`, spec §4.3 wording) classifies founder, but the
source's `ChangeDetector.is_founder_change` — whose keyword list is the
`Settings` default `Founder,Co-founder,CEO,Chief Executive Officer,
Entrepreneur,Creator,Stealth,Building` — does not. -/
theorem is_founder_change_counterexample :
    is_founder_change (mkTitleProfile ("Owner")) = false
      ∧ spec_is_founder_change (mkTitleProfile ("Owner")) = true
      ∧ is_founder_change (mkTitleProfile ("Startup Advisor")) = true
      ∧ spec_is_founder_change (mkTitleProfile ("Startup Advisor")) = false := by
  exact ⟨by decide, by decide, by decide, by decide⟩

/-- C2 amended.  `is_founder_change` is true iff the new title contains
(case-insensitively) one of the configured default keywords `Founder`,
`Co-founder`, `CEO`, `Chief Executive Officer`, `Entrepreneur`, `Creator`,
`Stealth`, `Building`, or the title or company contains one of the stealth
keywords `stealth`, `building`, `launching`, `starting`, `startup`; the
examples `FOUNDER`, `founder`, `Founder & CEO` classify true and
`Product Manager` false. -/
theorem is_founder_change_amended :
    (∀ p : PDict, is_founder_change p = true ↔
      (detect_founder_keywords p.current_title
          [("Founder"), ("Co-founder"), ("CEO"), ("Chief Executive Officer"),
           ("Entrepreneur"), ("Creator"), ("Stealth"), ("Building")] = true
        ∨ detect_founder_keywords p.current_title
            [("stealth"), ("building"), ("launching"), ("starting"), ("startup")] = true
        ∨ detect_founder_keywords p.current_company
            [("stealth"), ("building"), ("launching"), ("starting"), ("startup")] = true))
    ∧ is_founder_change (mkTitleProfile ("FOUNDER")) = true
    ∧ is_founder_change (mkTitleProfile ("founder")) = true
    ∧ is_founder_change (mkTitleProfile ("Founder & CEO")) = true
    ∧ is_founder_change (mkTitleProfile ("Product Manager")) = false := by
  refine ⟨?_, by decide, by decide, by decide, by decide⟩
  intro p
  have hset : settings_get_founder_keywords =
      [("Founder"), ("Co-founder"), ("CEO"), ("Chief Executive Officer"),
       ("Entrepreneur"), ("Creator"), ("Stealth"), ("Building")] := by decide
  have hsk : stealth_keywords =
      [("stealth"), ("building"), ("launching"), ("starting"), ("startup")] := rfl
  unfold is_founder_change
  rw [hset, hsk]
  cases hA : detect_founder_keywords p.current_title
      [("Founder"), ("Co-founder"), ("CEO"), ("Chief Executive Officer"),
       ("Entrepreneur"), ("Creator"), ("Stealth"), ("Building")] with
  | true => simp [hA]
  | false =>
      cases hB : detect_founder_keywords p.current_title
          [("stealth"), ("building"), ("launching"), ("starting"), ("startup")] with
      | true => simp [hA, hB]
      | false =>
          cases hC : detect_founder_keywords p.current_company
              [("stealth"), ("building"), ("launching"), ("starting"), ("startup")] with
          | true => simp [hA, hB, hC]
          | false => simp [hA, hB, hC]

/-! ### Theorems: deterministic insight fallback (C8) -/

/-- The text-generation collaborator is unusable: the credential is falsy,
the client library is unavailable, or the call raised. -/
def fallback_active (cfg : OpenAIConfig) (api_response : PyRes String) : Prop :=
  optStrTruthy cfg.api_key = false ∨ cfg.available = false ∨ api_response = PyRes.exn

theorem fallback_mock (cfg : OpenAIConfig) (api_response : PyRes String) (p : PDict)
    (h : fallback_active cfg api_response) :
    openai_generate_founder_insight cfg api_response p =
      (mock_insights p).getD (mock_index p.first_name p.last_name) ("") := by
  unfold openai_generate_founder_insight
  rcases h with h | h | h
  · simp [h]
  · simp [h]
  · subst h
    split
    · rfl
    · rfl

/-- C8.  Whenever the collaborator is unavailable or fails, the insight is
the mock template selected by the name hash: two invocations with the same
profile (under any two failing/unavailable configurations) return the same
string, and that string is drawn from the fixed `mock_insights` template
set at an index depending only on the profile's name. -/
theorem insight_fallback_deterministic (cfg1 cfg2 : OpenAIConfig)
    (r1 r2 : PyRes String) (p : PDict)
    (h1 : fallback_active cfg1 r1) (h2 : fallback_active cfg2 r2) :
    openai_generate_founder_insight cfg1 r1 p = openai_generate_founder_insight cfg2 r2 p
      ∧ openai_generate_founder_insight cfg1 r1 p =
          (mock_insights p).getD (mock_index p.first_name p.last_name) ("") := by
  rw [fallback_mock cfg1 r1 p h1, fallback_mock cfg2 r2 p h2]
  exact ⟨rfl, rfl⟩

/-- C8 witness: missing key on one side, collaborator exception on the
other, concrete profile. -/
theorem insight_fallback_deterministic_witness :
    fallback_active { api_key := none, available := false } PyRes.exn
      ∧ fallback_active { api_key := some ("k"), available := true } PyRes.exn
      ∧ (openai_generate_founder_insight { api_key := none, available := false }
            PyRes.exn (mkTitleProfile ("Founder"))
          = openai_generate_founder_insight { api_key := some ("k"), available := true }
            PyRes.exn (mkTitleProfile ("Founder"))
        ∧ openai_generate_founder_insight { api_key := none, available := false }
            PyRes.exn (mkTitleProfile ("Founder"))
          = (mock_insights (mkTitleProfile ("Founder"))).getD
              (mock_index (mkTitleProfile ("Founder")).first_name
                (mkTitleProfile ("Founder")).last_name) ("")) :=
  ⟨Or.inl rfl, Or.inr (Or.inr rfl),
   insight_fallback_deterministic _ _ _ _ _ (Or.inl rfl) (Or.inr (Or.inr rfl))⟩

/-! ### Theorems: Change serialization round-trip (C10) -/

theorem pyBoolOfVal_roundtrip (b : Bool) :
    pyBoolOfVal (PyBoolVal.strv (pyBoolStr b)) = b := by
  cases b <;> decide

/-- C10.  `Change.from_dict (Change.to_dict c)` reconstructs `c` field by
field.  The hypothesis `c.detected_date ≠ ""` is the `Change.__init__`
invariant: the constructor replaces a falsy date with the current
timestamp, so no constructed `Change` carries an empty date. -/
theorem change_roundtrip (now : String) (c : Change) (hd : c.detected_date ≠ ("")) :
    Change.from_dict now c.to_dict = c := by
  cases c with
  | mk cid lurl ot nt oc nc dd f ai ns =>
      simp only [Change.from_dict, Change.to_dict, Change.make, Option.getD_some,
        pyBoolOfVal_roundtrip]
      simp only at hd
      have hdd : (dd == ("")) = false := beq_false_of_ne hd
      cases cid with
      | none =>
          simp [PyIdVal.truthy, hdd]
      | some n =>
          have htr : (PyIdVal.strv (pyStrOfInt n)).truthy = true := by
            simp [PyIdVal.truthy, bne_iff_ne, pyStrOfInt_ne_empty n]
          simp [htr, pyIdToIntOpt, pyParseInt_pyStrOfInt, hdd]

/-- C10 witness at a concrete `Change` with an integer id. -/
theorem change_roundtrip_witness :
    ({ change_id := some 42, linkedin_url := ("u"), old_title := ("a"),
       new_title := ("b"), old_company := ("c"), new_company := ("d"),
       detected_date := ("2025-01-01"), is_founder_change := true,
       ai_insight := ("i"), notification_sent := false } : Change).detected_date ≠ ("")
      ∧ Change.from_dict ("now")
          ({ change_id := some 42, linkedin_url := ("u"), old_title := ("a"),
             new_title := ("b"), old_company := ("c"), new_company := ("d"),
             detected_date := ("2025-01-01"), is_founder_change := true,
             ai_insight := ("i"), notification_sent := false } : Change).to_dict
        = { change_id := some 42, linkedin_url := ("u"), old_title := ("a"),
            new_title := ("b"), old_company := ("c"), new_company := ("d"),
            detected_date := ("2025-01-01"), is_founder_change := true,
            ai_insight := ("i"), notification_sent := false } :=
  ⟨by decide, change_roundtrip ("now") _ (by decide)⟩

/-! ### Supporting lemmas: monad, normalizer shape, storage -/

theorem PyRes.bind_ok {α β : Type} (a : α) (f : α → PyRes β) :
    (PyRes.ok a >>= f) = f a := rfl

theorem PyRes.bind_exn {α β : Type} (f : α → PyRes β) :
    ((PyRes.exn : PyRes α) >>= f) = PyRes.exn := rfl

theorem PyRes.pure_eq {α : Type} (a : α) : (pure a : PyRes α) = PyRes.ok a := rfl

/-- The record produced by a successful normalization, in terms of the raw
record and the selected previous role. -/
theorem process_ok_shape (url now : String) (r : RawRecord) (pd : PDict)
    (h : process_linkedin_profile url r now = PyRes.ok pd) :
    ∃ prev, select_previous (past_experiences_of r) = PyRes.ok prev ∧
      pd = { linkedin_url := url, first_name := r.first_name, last_name := r.last_name,
             full_name :=
               match r.full_name with
               | some fn => fn
               | none => pyStrip (r.first_name ++ (" ") ++ r.last_name),
             current_title := r.job_title, current_company := r.company,
             previous_title := prev.1, previous_company := prev.2,
             last_checked_date := now, tracking_status := ("Active"),
             outreach_status := ("Not contacted") } := by
  unfold process_linkedin_profile at h
  cases hsel : select_previous (past_experiences_of r) with
  | exn =>
      rw [hsel, PyRes.bind_exn] at h
      exact absurd h (by simp)
  | ok prev =>
      rw [hsel, PyRes.bind_ok] at h
      refine ⟨prev, rfl, ?_⟩
      rw [PyRes.pure_eq] at h
      cases h
      rfl

theorem process_ok_fields (url now : String) (r : RawRecord) (pd : PDict)
    (h : process_linkedin_profile url r now = PyRes.ok pd) :
    pd.linkedin_url = url ∧ pd.current_title = r.job_title
      ∧ pd.current_company = r.company ∧ pd.last_checked_date = now := by
  obtain ⟨prev, _, hpd⟩ := process_ok_shape url now r pd h
  subst hpd
  exact ⟨rfl, rfl, rfl, rfl⟩

theorem find_append_of_none {α : Type} (p : α → Bool) (l1 l2 : List α)
    (h : l1.find? p = none) : (l1 ++ l2).find? p = l2.find? p := by
  induction l1 with
  | nil => simp
  | cons a as ih =>
      rw [List.find?_cons] at h
      cases hp : p a with
      | true => simp [hp] at h
      | false =>
          rw [hp] at h
          simp only [List.cons_append, List.find?_cons, hp]
          exact ih h

theorem filter_eq_nil_of_find_none {α : Type} (p : α → Bool) (l : List α)
    (h : l.find? p = none) : l.filter p = [] := by
  induction l with
  | nil => rfl
  | cons a as ih =>
      rw [List.find?_cons] at h
      cases hp : p a with
      | true => simp [hp] at h
      | false =>
          rw [hp] at h
          simp [List.filter_cons, hp, ih h]

theorem storage_add_untracked (st : Storage) (pd : PDict) (now : String)
    (h : st.profiles.any (fun p => p.linkedin_url == pd.linkedin_url) = false) :
    storage_add_profile st pd now =
      { st with profiles := st.profiles ++
          [{ pd with
              last_checked_date := now,
              tracking_status := ("Active"),
              outreach_status := ("Not contacted") }] } := by
  simp only [storage_add_profile]
  rw [h]
  simp

theorem any_eq_false_of_find_none {α : Type} (p : α → Bool) (l : List α)
    (h : l.find? p = none) : l.any p = false := by
  induction l with
  | nil => rfl
  | cons a as ih =>
      rw [List.find?_cons] at h
      cases hp : p a with
      | true => simp [hp] at h
      | false =>
          rw [hp] at h
          simp [List.any_cons, hp, ih h]

/-! ### Theorems: idempotent add (C9) -/

/-- A successful first add of an untracked identifier went through the full
fetch–normalize–store path, and the stored profile list gained exactly the
fresh row. -/
theorem add_profile_untracked_ok (st : Storage) (url now1 : String) (f1 : FetchResult)
    (hval : validate_linkedin_url url = true)
    (hnew : get_profile st url = none)
    (hok : (add_profile st url f1 now1).ok = true) :
    ∃ r pd, f1 = FetchResult.returns (some r) ∧ r.error = none
      ∧ process_linkedin_profile url r now1 = PyRes.ok pd
      ∧ (add_profile st url f1 now1).st = storage_add_profile st pd now1 := by
  unfold add_profile at hok ⊢
  rw [hval] at hok ⊢
  simp only [Bool.not_true, Bool.false_eq_true, if_false] at hok ⊢
  rw [hnew] at hok ⊢
  cases f1 with
  | raises m => simp at hok
  | returns data =>
      cases data with
      | none => simp at hok
      | some r =>
          cases herr : r.error with
          | some e => simp only [herr] at hok; simp at hok
          | none =>
              simp only [herr] at hok ⊢
              cases hproc : process_linkedin_profile url r now1 with
              | exn => simp only [hproc] at hok; simp at hok
              | ok pd =>
                  simp only [hproc]
                  exact ⟨r, pd, rfl, herr, hproc, rfl⟩

/-- C9.  After a successful first `add_profile` of an untracked identifier,
a second `add_profile` of the same identifier returns success with the
already-being-tracked message and leaves storage unchanged — for any
behaviour of the data provider on the second call (hence no fetch influences
it) — and exactly one stored profile carries the identifier. -/
theorem add_profile_idempotent (st : Storage) (url now1 : String) (f1 : FetchResult)
    (hnew : get_profile st url = none)
    (hok : (add_profile st url f1 now1).ok = true) :
    (∀ f2 now2,
      (add_profile (add_profile st url f1 now1).st url f2 now2).st
          = (add_profile st url f1 now1).st
        ∧ (add_profile (add_profile st url f1 now1).st url f2 now2).ok = true
        ∧ (add_profile (add_profile st url f1 now1).st url f2 now2).msg
          = ("Profile ") ++ url ++ (" is already being tracked"))
      ∧ ((add_profile st url f1 now1).st.profiles.filter
          (fun p => p.linkedin_url == url)).length = 1 := by
  cases hval : validate_linkedin_url url with
  | false =>
      unfold add_profile at hok
      rw [hval] at hok
      simp at hok
  | true =>
      obtain ⟨r, pd, hf1, herr, hproc, hst⟩ :=
        add_profile_untracked_ok st url now1 f1 hval hnew hok
      have hurl : pd.linkedin_url = url := (process_ok_fields url now1 r pd hproc).1
      have hany : st.profiles.any (fun p => p.linkedin_url == pd.linkedin_url) = false := by
        rw [hurl]
        exact any_eq_false_of_find_none _ _ hnew
      have hadd := storage_add_untracked st pd now1 hany
      have hfresh :
          ({ pd with
              last_checked_date := now1,
              tracking_status := ("Active"),
              outreach_status := ("Not contacted") } : PDict).linkedin_url = url := hurl
      have hget2 : get_profile (storage_add_profile st pd now1) url =
          some ({ pd with
                   last_checked_date := now1,
                   tracking_status := ("Active"),
                   outreach_status := ("Not contacted") }) := by
        rw [hadd]
        unfold get_profile
        simp only
        rw [find_append_of_none _ _ _ hnew]
        simp [List.find?_cons, hurl]
      constructor
      · intro f2 now2
        rw [hst]
        unfold add_profile
        rw [hval]
        simp only [Bool.not_true, Bool.false_eq_true, if_false]
        rw [hget2]
        exact ⟨rfl, rfl, rfl⟩
      · rw [hst, hadd]
        simp only
        rw [List.filter_append, filter_eq_nil_of_find_none _ _ hnew]
        simp [List.filter_cons, hurl]

def c9_url : String := "https://linkedin.com/in/test-founder"

def c9_raw : RawRecord :=
  { error := none, message := none, first_name := ("Test"), last_name := ("Founder"),
    job_title := ("Founder & CEO"), company := ("Test Startup"), full_name := none,
    experiences := [] }

def c9_st0 : Storage := { profiles := [], changes := [] }

/-- C9 witness: fresh storage, valid identifier, successful fetch. -/
theorem add_profile_idempotent_witness :
    get_profile c9_st0 c9_url = none
      ∧ (add_profile c9_st0 c9_url (FetchResult.returns (some c9_raw)) ("t0")).ok = true
      ∧ ((∀ f2 now2,
          (add_profile (add_profile c9_st0 c9_url
              (FetchResult.returns (some c9_raw)) ("t0")).st c9_url f2 now2).st
              = (add_profile c9_st0 c9_url (FetchResult.returns (some c9_raw)) ("t0")).st
            ∧ (add_profile (add_profile c9_st0 c9_url
                (FetchResult.returns (some c9_raw)) ("t0")).st c9_url f2 now2).ok = true
            ∧ (add_profile (add_profile c9_st0 c9_url
                (FetchResult.returns (some c9_raw)) ("t0")).st c9_url f2 now2).msg
              = ("Profile ") ++ c9_url ++ (" is already being tracked"))
        ∧ ((add_profile c9_st0 c9_url
            (FetchResult.returns (some c9_raw)) ("t0")).st.profiles.filter
            (fun p => p.linkedin_url == c9_url)).length = 1) :=
  ⟨by decide, by decide,
   add_profile_idempotent c9_st0 c9_url ("t0") (FetchResult.returns (some c9_raw))
     (by decide) (by decide)⟩

/-! ### Theorems: current-role selection (C5) -/

def c5_exp : Experience :=
  { is_current := true, title := ("X"), company := ("Y"), end_year := .absent,
    end_month := .absent, start_year := .intv 2024, start_month := .intv 1 }

def c5_raw : RawRecord :=
  { error := none, message := none, first_name := (""), last_name := (""),
    job_title := (""), company := (""), full_name := none, experiences := [c5_exp] }

/-- C5 counterexample.  On a record with no top-level current-job fields and
one open-ended experience, the claim's selection rule (`spec_current_title`,
spec §4.2 wording) yields that experience's title, but the source's
normalizer leaves the current title empty — it never consults the
experience list for the current role. -/
theorem current_selection_counterexample :
    process_linkedin_profile ("u") c5_raw ("d") = PyRes.ok
      { linkedin_url := ("u"), first_name := (""), last_name := (""),
        full_name := (""), current_title := (""), current_company := (""),
        previous_title := (""), previous_company := (""), last_checked_date := ("d"),
        tracking_status := ("Active"), outreach_status := ("Not contacted") }
      ∧ spec_current_title c5_raw = ("X")
      ∧ (("") : String) ≠ ("X") :=
  ⟨by decide, by decide, by decide⟩

/-- C5 amended.  The normalizer takes the canonical current title and
company unconditionally from the top-level `job_title` / `company` fields
(empty string when the provider omits them); the experience list is never
used for the current role. -/
theorem current_role_from_top_level (url now : String) (r : RawRecord) (pd : PDict)
    (h : process_linkedin_profile url r now = PyRes.ok pd) :
    pd.current_title = r.job_title ∧ pd.current_company = r.company :=
  ⟨(process_ok_fields url now r pd h).2.1, (process_ok_fields url now r pd h).2.2.1⟩

def c5_pd : PDict :=
  { linkedin_url := ("u"), first_name := ("Test"), last_name := ("Founder"),
    full_name := ("Test Founder"), current_title := ("Founder & CEO"),
    current_company := ("Test Startup"), previous_title := (""),
    previous_company := (""), last_checked_date := ("d"),
    tracking_status := ("Active"), outreach_status := ("Not contacted") }

/-- C5 witness. -/
theorem current_role_from_top_level_witness :
    process_linkedin_profile ("u") c9_raw ("d") = PyRes.ok c5_pd
      ∧ (c5_pd.current_title = c9_raw.job_title
        ∧ c5_pd.current_company = c9_raw.company) :=
  ⟨by decide, current_role_from_top_level ("u") ("d") c9_raw c5_pd (by decide)⟩

/-! ### Theorems: normalization on malformed date fields (C7) -/

def c7_exp : Experience :=
  { is_current := false, title := ("T"), company := ("C"),
    end_year := PyNumVal.strv ("recent"), end_month := .absent,
    start_year := .absent, start_month := .absent }

def c7_raw : RawRecord :=
  { error := none, message := none, first_name := ("A"), last_name := ("B"),
    job_title := ("X"), company := ("Y"), full_name := none,
    experiences := [c7_exp] }

/-- C7 counterexample.  A non-current experience whose `end_year` is the
truthy non-numeric string `"recent"` makes `int(...)` raise `ValueError`
inside the sort key, so normalization raises instead of treating the value
as zero. -/
theorem normalization_raises_counterexample :
    process_linkedin_profile ("u") c7_raw ("d") = PyRes.exn := by decide

/-- A date field is well-formed when, if truthy, `int(...)` accepts it. -/
def pyNumWF : PyNumVal → Bool
  | .absent => true
  | .intv _ => true
  | .strv s => if s != ("") then (pyParseInt s).isSome else true

def expWF (e : Experience) : Bool :=
  pyNumWF e.end_year && pyNumWF e.end_month && pyNumWF e.start_year && pyNumWF e.start_month

theorem numKeyComponent_wf (a b : PyNumVal) (ha : pyNumWF a = true) (hb : pyNumWF b = true) :
    ∃ n, numKeyComponent a b = PyRes.ok n := by
  unfold numKeyComponent
  by_cases hta : a.truthy = true
  · rw [hta]
    simp only [if_true]
    cases a with
    | absent => simp [PyNumVal.truthy] at hta
    | intv n => exact ⟨n, rfl⟩
    | strv s =>
        simp only [PyNumVal.truthy] at hta
        simp only [pyNumWF, hta, if_true] at ha
        cases hp : pyParseInt s with
        | none => rw [hp] at ha; simp [Option.isSome] at ha
        | some n => exact ⟨n, by simp [PyNumVal.toIntE, hp]⟩
  · rw [Bool.not_eq_true] at hta
    rw [hta]
    simp only [Bool.false_eq_true, if_false]
    by_cases htb : b.truthy = true
    · rw [htb]
      simp only [if_true]
      cases b with
      | absent => simp [PyNumVal.truthy] at htb
      | intv n => exact ⟨n, rfl⟩
      | strv s =>
          simp only [PyNumVal.truthy] at htb
          simp only [pyNumWF, htb, if_true] at hb
          cases hp : pyParseInt s with
          | none => rw [hp] at hb; simp [Option.isSome] at hb
          | some n => exact ⟨n, by simp [PyNumVal.toIntE, hp]⟩
    · rw [Bool.not_eq_true] at htb
      rw [htb]
      simp only [Bool.false_eq_true, if_false]
      exact ⟨0, rfl⟩

theorem expKey_wf (e : Experience) (h : expWF e = true) : ∃ k, expKey e = PyRes.ok k := by
  simp only [expWF, Bool.and_eq_true] at h
  obtain ⟨⟨⟨h1, h2⟩, h3⟩, h4⟩ := h
  obtain ⟨y, hy⟩ := numKeyComponent_wf e.end_year e.start_year h1 h3
  obtain ⟨m, hm⟩ := numKeyComponent_wf e.end_month e.start_month h2 h4
  refine ⟨(y, m), ?_⟩
  unfold expKey
  rw [hy, PyRes.bind_ok, hm, PyRes.bind_ok]
  rfl

theorem computeKeys_wf (l : List Experience) (h : ∀ e ∈ l, expWF e = true) :
    ∃ out, computeKeys l = PyRes.ok out := by
  induction l with
  | nil => exact ⟨[], rfl⟩
  | cons e rest ih =>
      obtain ⟨k, hk⟩ := expKey_wf e (h e (List.mem_cons_self e rest))
      obtain ⟨out, hout⟩ := ih (fun e2 he2 => h e2 (List.mem_cons_of_mem e he2))
      refine ⟨(k, e) :: out, ?_⟩
      unfold computeKeys
      rw [hk, PyRes.bind_ok, hout, PyRes.bind_ok]
      rfl

theorem select_previous_wf (l : List Experience) (h : ∀ e ∈ l, expWF e = true) :
    ∃ prev, select_previous l = PyRes.ok prev := by
  unfold select_previous
  by_cases hl : l.isEmpty = true
  · rw [hl]
    exact ⟨((""), ("")), rfl⟩
  · rw [Bool.not_eq_true] at hl
    rw [hl]
    simp only [Bool.false_eq_true, if_false]
    obtain ⟨out, hout⟩ := computeKeys_wf l h
    unfold sortPastExperiences
    rw [hout, PyRes.bind_ok, PyRes.pure_eq, PyRes.bind_ok]
    cases (sortDescBy Prod.fst out).map Prod.snd with
    | nil => exact ⟨((""), ("")), rfl⟩
    | cons a rest => exact ⟨(a.title, a.company), rfl⟩

/-- C7 amended.  Normalization never raises on records whose present,
truthy date fields are numeric (missing or falsy fields take the
end-to-start fallback and finally zero); a truthy non-numeric string makes
it raise (the calling service catches the exception and converts it into a
per-identifier failure). -/
theorem normalization_total_on_wf (url now : String) (r : RawRecord)
    (h : ∀ e ∈ r.experiences, expWF e = true) :
    (process_linkedin_profile url r now).isOk = true := by
  have hpast : ∀ e ∈ past_experiences_of r, expWF e = true := by
    intro e he
    exact h e (List.mem_of_mem_filter he)
  obtain ⟨prev, hprev⟩ := select_previous_wf (past_experiences_of r) hpast
  unfold process_linkedin_profile
  rw [hprev, PyRes.bind_ok]
  rfl

def c7w_exp : Experience :=
  { is_current := false, title := ("T1"), company := ("C1"),
    end_year := PyNumVal.strv ("2020"), end_month := PyNumVal.intv 5,
    start_year := .absent, start_month := PyNumVal.strv ("") }

def c7w_raw : RawRecord :=
  { error := none, message := none, first_name := (""), last_name := (""),
    job_title := ("T"), company := ("C"), full_name := none,
    experiences := [c7w_exp] }

/-- C7 witness: a record whose experience mixes absent, numeric-string and
int date fields normalizes successfully. -/
theorem normalization_total_on_wf_witness :
    (∀ e ∈ c7w_raw.experiences, expWF e = true)
      ∧ (process_linkedin_profile ("u") c7w_raw ("d")).isOk = true :=
  ⟨by decide, normalization_total_on_wf ("u") ("d") c7w_raw (by decide)⟩

/-! ### Sorting lemmas and previous-role selection (C6) -/

theorem keyLe_iff (a b : Int × Int) :
    keyLe a b = true ↔ (a.1 < b.1 ∨ (a.1 = b.1 ∧ a.2 ≤ b.2)) := by
  unfold keyLe
  split_ifs with h1 h2
  · simp [h1]
  · simp [h1, h2, decide_eq_true_iff]
  · simp [h1, h2]

theorem keyLe_refl (a : Int × Int) : keyLe a a = true := by
  rw [keyLe_iff]
  omega

theorem keyLe_total (a b : Int × Int) : keyLe a b = true ∨ keyLe b a = true := by
  rw [keyLe_iff, keyLe_iff]
  omega

theorem keyLe_trans (a b c : Int × Int) (h1 : keyLe a b = true) (h2 : keyLe b c = true) :
    keyLe a c = true := by
  rw [keyLe_iff] at h1 h2 ⊢
  omega

theorem insertDescBy_mem {α : Type} (key : α → Int × Int) (x y : α) (l : List α) :
    y ∈ insertDescBy key x l ↔ y = x ∨ y ∈ l := by
  induction l with
  | nil => simp [insertDescBy]
  | cons a as ih =>
      unfold insertDescBy
      split
      · simp [List.mem_cons]
      · simp only [List.mem_cons, ih]
        tauto

theorem sortDescBy_mem {α : Type} (key : α → Int × Int) (y : α) (l : List α) :
    y ∈ sortDescBy key l ↔ y ∈ l := by
  induction l with
  | nil => simp [sortDescBy]
  | cons a as ih =>
      unfold sortDescBy
      rw [insertDescBy_mem]
      simp only [List.mem_cons, ih]

theorem insertDescBy_length {α : Type} (key : α → Int × Int) (x : α) (l : List α) :
    (insertDescBy key x l).length = l.length + 1 := by
  induction l with
  | nil => rfl
  | cons a as ih =>
      unfold insertDescBy
      split
      · simp
      · simp [ih]

theorem sortDescBy_length {α : Type} (key : α → Int × Int) (l : List α) :
    (sortDescBy key l).length = l.length := by
  induction l with
  | nil => rfl
  | cons a as ih =>
      unfold sortDescBy
      rw [insertDescBy_length, ih, List.length_cons]

/-- The head of the stable descending sort is a maximal-key element. -/
theorem sortDescBy_head_max {α : Type} (key : α → Int × Int) (l : List α) (x : α)
    (rest : List α) (h : sortDescBy key l = x :: rest) :
    x ∈ l ∧ ∀ y ∈ l, keyLe (key y) (key x) = true := by
  induction l generalizing x rest with
  | nil => simp [sortDescBy] at h
  | cons a as ih =>
      unfold sortDescBy at h
      cases has : sortDescBy key as with
      | nil =>
          have hasnil : as = [] := by
            have := sortDescBy_length key as
            rw [has] at this
            cases as with
            | nil => rfl
            | cons b bs => simp at this
          subst hasnil
          simp only [insertDescBy] at h
          cases h
          constructor
          · exact List.mem_cons_self _ _
          · intro y hy
            rcases List.mem_cons.mp hy with h1 | h1
            · subst h1
              exact keyLe_refl _
            · simp at h1
      | cons m r =>
          rw [has] at h
          obtain ⟨hmem, hmax⟩ := ih m r has
          unfold insertDescBy at h
          split at h
          · next hcmp =>
              cases h
              constructor
              · exact List.mem_cons_self _ _
              · intro y hy
                rcases List.mem_cons.mp hy with h1 | h1
                · subst h1
                  exact keyLe_refl _
                · exact keyLe_trans _ _ _ (hmax y h1) hcmp
          · next hcmp =>
              cases h
              have hxa : keyLe (key a) (key x) = true := by
                rcases keyLe_total (key a) (key x) with h1 | h1
                · exact h1
                · exact absurd h1 (by simpa using hcmp)
              constructor
              · exact List.mem_cons_of_mem _ hmem
              · intro y hy
                rcases List.mem_cons.mp hy with h1 | h1
                · subst h1
                  exact hxa
                · exact hmax y h1

/-- Soundness of the decorate pass: a successful `computeKeys` pairs every
input experience with its computed key, in order. -/
theorem computeKeys_sound (l : List Experience) :
    ∀ out, computeKeys l = PyRes.ok out →
      out.length = l.length
        ∧ (∀ p ∈ out, p.2 ∈ l ∧ expKey p.2 = PyRes.ok p.1)
        ∧ (∀ e ∈ l, ∃ k, (k, e) ∈ out) := by
  induction l with
  | nil =>
      intro out h
      unfold computeKeys at h
      cases h
      refine ⟨rfl, ?_, ?_⟩
      · intro p hp
        simp at hp
      · intro e he
        simp at he
  | cons e rest ih =>
      intro out h
      unfold computeKeys at h
      cases hk : expKey e with
      | exn => rw [hk, PyRes.bind_exn] at h; exact absurd h (by simp)
      | ok k =>
          rw [hk, PyRes.bind_ok] at h
          cases hks : computeKeys rest with
          | exn => rw [hks, PyRes.bind_exn] at h; exact absurd h (by simp)
          | ok ks =>
              rw [hks, PyRes.bind_ok, PyRes.pure_eq] at h
              cases h
              obtain ⟨hlen, hsound, hcompl⟩ := ih ks hks
              refine ⟨by simp [hlen], ?_, ?_⟩
              · intro p hp
                rcases List.mem_cons.mp hp with h1 | h1
                · subst h1
                  exact ⟨List.mem_cons_self _ _, hk⟩
                · obtain ⟨hm, hkey⟩ := hsound p h1
                  exact ⟨List.mem_cons_of_mem _ hm, hkey⟩
              · intro e2 he2
                rcases List.mem_cons.mp he2 with h1 | h1
                · subst h1
                  exact ⟨k, List.mem_cons_self _ _⟩
                · obtain ⟨k2, hk2⟩ := hcompl e2 h1
                  exact ⟨k2, List.mem_cons_of_mem _ hk2⟩

/-- C6 amended.  When normalization succeeds, the previous title and company
are empty strings when no non-current experience remains, and otherwise come
from a non-current entry whose key `(end_year|start_year|0,
end_month|start_month|0)` — each component falling back to the start
component independently — is maximal among all non-current entries. -/
theorem previous_selection_spec (url now : String) (r : RawRecord) (pd : PDict)
    (h : process_linkedin_profile url r now = PyRes.ok pd) :
    (past_experiences_of r = [] → pd.previous_title = ("") ∧ pd.previous_company = (""))
      ∧ (past_experiences_of r ≠ [] →
          ∃ e ke, e ∈ past_experiences_of r ∧ expKey e = PyRes.ok ke
            ∧ pd.previous_title = e.title ∧ pd.previous_company = e.company
            ∧ ∀ e2 ∈ past_experiences_of r,
                ∃ ke2, expKey e2 = PyRes.ok ke2 ∧ keyLe ke2 ke = true) := by
  obtain ⟨prev, hsel, hpd⟩ := process_ok_shape url now r pd h
  constructor
  · intro hempty
    unfold select_previous at hsel
    rw [hempty] at hsel
    simp only [List.isEmpty_nil, if_true] at hsel
    cases hsel
    subst hpd
    exact ⟨rfl, rfl⟩
  · intro hne
    unfold select_previous at hsel
    have hemp : (past_experiences_of r).isEmpty = false := by
      cases hpe : past_experiences_of r with
      | nil => exact absurd hpe hne
      | cons a as => rfl
    rw [hemp] at hsel
    simp only [Bool.false_eq_true, if_false] at hsel
    cases hck : computeKeys (past_experiences_of r) with
    | exn =>
        unfold sortPastExperiences at hsel
        rw [hck, PyRes.bind_exn, PyRes.bind_exn] at hsel
        exact absurd hsel (by simp)
    | ok keyed =>
        unfold sortPastExperiences at hsel
        rw [hck, PyRes.bind_ok, PyRes.pure_eq, PyRes.bind_ok] at hsel
        obtain ⟨hlen, hsound, hcompl⟩ := computeKeys_sound _ keyed hck
        cases hs : sortDescBy Prod.fst keyed with
        | nil =>
            exfalso
            have h1 := sortDescBy_length Prod.fst keyed
            rw [hs] at h1
            cases hpe : past_experiences_of r with
            | nil => exact hne hpe
            | cons a as =>
                rw [hpe] at hlen
                simp at h1 hlen
                omega
        | cons hd tl =>
            rw [hs] at hsel
            simp only [List.map_cons] at hsel
            cases hsel
            obtain ⟨hhdmem, hhdmax⟩ := sortDescBy_head_max Prod.fst keyed hd tl hs
            obtain ⟨hhdin, hhdkey⟩ := hsound hd hhdmem
            refine ⟨hd.2, hd.1, hhdin, hhdkey, ?_, ?_, ?_⟩
            · subst hpd; rfl
            · subst hpd; rfl
            · intro e2 he2
              obtain ⟨k2, hk2⟩ := hcompl e2 he2
              obtain ⟨_, hk2key⟩ := hsound (k2, e2) hk2
              refine ⟨k2, hk2key, ?_⟩
              have := hhdmax (k2, e2) hk2
              simpa using this

def c6_expA : Experience :=
  { is_current := false, title := ("TA"), company := ("CA"), end_year := .intv 2020,
    end_month := .absent, start_year := .intv 2015, start_month := .intv 12 }

def c6_expB : Experience :=
  { is_current := false, title := ("TB"), company := ("CB"), end_year := .intv 2020,
    end_month := .intv 11, start_year := .intv 2016, start_month := .intv 1 }

def c6_raw : RawRecord :=
  { error := none, message := none, first_name := (""), last_name := (""),
    job_title := (""), company := (""), full_name := none,
    experiences := [c6_expA, c6_expB] }

/-- C6 counterexample.  Entry A ended in 2020 with no end month (start month
December); entry B ended in November 2020.  Under the claim's rule — most
recent end date, start date only when the end date is absent, missing
components zero — B (2020-11) beats A (2020-00), but the source's key
borrows A's start month for the missing end month, giving A (2020,12) the
win: the code selects "TA" where the claim demands "TB". -/
theorem previous_selection_counterexample :
    process_linkedin_profile ("u") c6_raw ("d") = PyRes.ok
      { linkedin_url := ("u"), first_name := (""), last_name := (""),
        full_name := (""), current_title := (""), current_company := (""),
        previous_title := ("TA"), previous_company := ("CA"),
        last_checked_date := ("d"), tracking_status := ("Active"),
        outreach_status := ("Not contacted") }
      ∧ spec_previous_title c6_raw = some ("TB")
      ∧ (("TA") : String) ≠ ("TB") :=
  ⟨by decide, by decide, by decide⟩

def c6w_raw : RawRecord :=
  { error := none, message := none, first_name := (""), last_name := (""),
    job_title := (""), company := (""), full_name := none,
    experiences := [c6_expB, c6_expA] }

def c6w_pd : PDict :=
  { linkedin_url := ("u"), first_name := (""), last_name := (""),
    full_name := (""), current_title := (""), current_company := (""),
    previous_title := ("TA"), previous_company := ("CA"),
    last_checked_date := ("d"), tracking_status := ("Active"),
    outreach_status := ("Not contacted") }

/-- C6 witness at a record with two non-current experiences. -/
theorem previous_selection_spec_witness :
    process_linkedin_profile ("u") c6w_raw ("d") = PyRes.ok c6w_pd
      ∧ ((past_experiences_of c6w_raw = [] →
            c6w_pd.previous_title = ("") ∧ c6w_pd.previous_company = (""))
        ∧ (past_experiences_of c6w_raw ≠ [] →
            ∃ e ke, e ∈ past_experiences_of c6w_raw ∧ expKey e = PyRes.ok ke
              ∧ c6w_pd.previous_title = e.title ∧ c6w_pd.previous_company = e.company
              ∧ ∀ e2 ∈ past_experiences_of c6w_raw,
                  ∃ ke2, expKey e2 = PyRes.ok ke2 ∧ keyLe ke2 ke = true)) :=
  ⟨by decide, previous_selection_spec ("u") ("d") c6w_raw c6w_pd (by decide)⟩

/-! ### Supporting lemmas for the refresh pipeline (C3) -/

/-- All stored change rows carry ids that `int(...)` accepts. -/
def changes_wf (l : List ChangeDict) : Bool :=
  l.all (fun c => (pyIdToIntE c.change_id).isOk)

theorem collectChangeIds_ok (l : List ChangeDict) (h : changes_wf l = true) :
    ∃ ids, collectChangeIds l = PyRes.ok ids := by
  induction l with
  | nil => exact ⟨[], rfl⟩
  | cons c rest ih =>
      simp only [changes_wf, List.all_cons, Bool.and_eq_true] at h
      obtain ⟨h1, h2⟩ := h
      cases hi : pyIdToIntE c.change_id with
      | exn => rw [hi] at h1; simp [PyRes.isOk] at h1
      | ok i =>
          obtain ⟨ids, hids⟩ := ih (by simpa [changes_wf] using h2)
          refine ⟨i :: ids, ?_⟩
          unfold collectChangeIds
          rw [hi, PyRes.bind_ok, hids, PyRes.bind_ok]
          rfl

theorem changes_wf_append_row (l : List ChangeDict) (d : ChangeDict)
    (hl : changes_wf l = true) (hd : (pyIdToIntE d.change_id).isOk = true) :
    changes_wf (l ++ [d]) = true := by
  simp only [changes_wf, List.all_append, List.all_cons, List.all_nil,
    Bool.and_eq_true] at *
  simp [hl, hd]

theorem record_change_todict (st : Storage) (c : Change) (now : String)
    (hwf : changes_wf st.changes = true) (hcid : c.change_id = none) :
    ∃ k, record_change st (Change.to_dict c) now =
      PyRes.ok { st with changes := st.changes ++
        [{ Change.to_dict c with change_id := PyIdVal.intv k }] } := by
  have habs : (Change.to_dict c).change_id = PyIdVal.absent := by
    simp [Change.to_dict, hcid]
  obtain ⟨ids, hids⟩ := collectChangeIds_ok st.changes hwf
  refine ⟨pyMaxDefault0 ids + 1, ?_⟩
  unfold record_change
  rw [if_pos habs, hids, PyRes.bind_ok, PyRes.pure_eq, PyRes.bind_ok]
  simp [Change.to_dict, PyRes.pure_eq]

theorem storage_add_profile_changes (st : Storage) (pd : PDict) (now : String) :
    (storage_add_profile st pd now).changes = st.changes := by
  simp only [storage_add_profile]
  split
  · rfl
  · rfl

theorem find_replaceFirst {α : Type} (pred : α → Bool) (x : α) (l : List α)
    (hl : l.any pred = true) (hx : pred x = true) :
    (replaceFirst pred x l).find? pred = some x := by
  induction l with
  | nil => simp at hl
  | cons y ys ih =>
      cases hy : pred y with
      | true => simp [replaceFirst, hy, List.find?_cons, hx]
      | false =>
          have hys : ys.any pred = true := by simpa [List.any_cons, hy] using hl
          simp [replaceFirst, hy, List.find?_cons, ih hys]

theorem any_of_find_some {α : Type} (p : α → Bool) (l : List α) (x : α)
    (h : l.find? p = some x) : l.any p = true := by
  rw [List.any_eq_true]
  exact ⟨x, List.mem_of_find?_eq_some h, List.find?_some h⟩

theorem get_profile_after_update (st : Storage) (pd : PDict) (now : String)
    (hany : st.profiles.any (fun p => p.linkedin_url == pd.linkedin_url) = true) :
    get_profile (storage_add_profile st pd now) pd.linkedin_url =
      some ({ pd with last_checked_date := now }) := by
  simp only [storage_add_profile]
  rw [if_pos hany]
  unfold get_profile
  exact find_replaceFirst _ _ _ hany (by simp)

theorem get_profile_after_update_at (st : Storage) (pd : PDict) (now url : String)
    (hurl : pd.linkedin_url = url)
    (hany : st.profiles.any (fun p => p.linkedin_url == url) = true) :
    get_profile (storage_add_profile st pd now) url =
      some ({ pd with last_checked_date := now }) := by
  subst hurl
  exact get_profile_after_update st pd now hany

theorem mock_index_lt (first_name last_name : String) : mock_index first_name last_name < 4 := by
  unfold mock_index
  by_cases h : ((first_name ++ last_name) == ("")) = true
  · simp [h]
  · rw [Bool.not_eq_true] at h
    simp only [h, Bool.false_eq_true, if_false]
    omega

theorem str_append_ne_empty_right (a b : String) (hb : b ≠ ("")) : a ++ b ≠ ("") := by
  intro h
  apply hb
  have hd := congrArg String.data h
  rw [String.data_append] at hd
  have hnil : b.data = [] := (List.append_eq_nil.mp hd).2
  cases b with
  | mk bdata =>
      simp only at hnil
      rw [hnil]

theorem mock_insights_getD_ne_empty (p : PDict) {i : Nat} (h : i < 4) :
    (mock_insights p).getD i ("") ≠ ("") := by
  interval_cases i
  · exact str_append_ne_empty_right _ _ (by decide)
  · exact str_append_ne_empty_right _ _ (by decide)
  · exact str_append_ne_empty_right _ _ (by decide)
  · exact str_append_ne_empty_right _ _ (by decide)

theorem openai_insight_ne_empty (cfg : OpenAIConfig) (resp : PyRes String) (p : PDict)
    (hresp : ∀ s, resp = PyRes.ok s → pyStrip s ≠ ("")) :
    openai_generate_founder_insight cfg resp p ≠ ("") := by
  cases resp with
  | ok s =>
      unfold openai_generate_founder_insight
      split
      · exact mock_insights_getD_ne_empty p (mock_index_lt _ _)
      · exact hresp s rfl
  | exn =>
      unfold openai_generate_founder_insight
      split
      · exact mock_insights_getD_ne_empty p (mock_index_lt _ _)
      · exact mock_insights_getD_ne_empty p (mock_index_lt _ _)

/-! ### Theorems: refresh on a founder change (C3) -/

/-- C3.  For a tracked identifier whose fresh fetch normalizes to a profile
that triggers change detection against the stored snapshot and is
founder-classified, `refresh_profile` returns success and a `Change` with
the founder flag set and a non-empty insight stored on it before return;
the change row is persisted and the stored profile is overwritten with the
new data.  `hwf` is the storage invariant (stored change ids parse);
`hgen` says the text collaborator, when it succeeds, returns non-blank text
(otherwise the deterministic fallback is used, which is never empty). -/
theorem refresh_founder_change_spec (cfg : OpenAIConfig) (st : Storage)
    (url now : String) (r : RawRecord) (api_response : PyRes String) (ex pd : PDict)
    (hval : validate_linkedin_url url = true)
    (hex : get_profile st url = some ex)
    (herr : r.error = none)
    (hproc : process_linkedin_profile url r now = PyRes.ok pd)
    (hch : has_changed_roles pd ex = true)
    (hf : profile_is_founder pd = true)
    (hwf : changes_wf st.changes = true)
    (hgen : ∀ s, api_response = PyRes.ok s → pyStrip s ≠ ("")) :
    ∃ c st2,
      refresh_profile cfg st url (FetchResult.returns (some r)) api_response now =
        { st := st2, ok := true,
          msg := ("Detected role change for ") ++ url, change := some c }
        ∧ c.is_founder_change = true
        ∧ c.ai_insight ≠ ("")
        ∧ (∃ k, ({ Change.to_dict c with change_id := PyIdVal.intv k }) ∈ st2.changes)
        ∧ get_profile st2 url = some ({ pd with last_checked_date := now }) := by
  have hurl : pd.linkedin_url = url := (process_ok_fields url now r pd hproc).1
  obtain ⟨k1, hrec1⟩ := record_change_todict st
    (Change.from_profile_comparison now url ex pd true ("")) now hwf rfl
  have hwf2 : changes_wf ((storage_add_profile
      { st with changes := st.changes ++
          [{ Change.to_dict (Change.from_profile_comparison now url ex pd true ("")) with
             change_id := PyIdVal.intv k1 }] } pd now).changes) = true := by
    rw [storage_add_profile_changes]
    exact changes_wf_append_row _ _ hwf rfl
  obtain ⟨k2, hrec2⟩ := record_change_todict
    (storage_add_profile
      { st with changes := st.changes ++
          [{ Change.to_dict (Change.from_profile_comparison now url ex pd true ("")) with
             change_id := PyIdVal.intv k1 }] } pd now)
    ({ Change.from_profile_comparison now url ex pd true ("") with
       ai_insight := openai_generate_founder_insight cfg api_response pd }) now hwf2 rfl
  refine ⟨{ Change.from_profile_comparison now url ex pd true ("") with
            ai_insight := openai_generate_founder_insight cfg api_response pd },
          { storage_add_profile
              { st with changes := st.changes ++
                  [{ Change.to_dict (Change.from_profile_comparison now url ex pd true ("")) with
                     change_id := PyIdVal.intv k1 }] } pd now with
            changes := (storage_add_profile
              { st with changes := st.changes ++
                  [{ Change.to_dict (Change.from_profile_comparison now url ex pd true ("")) with
                     change_id := PyIdVal.intv k1 }] } pd now).changes ++
              [{ Change.to_dict
                   ({ Change.from_profile_comparison now url ex pd true ("") with
                      ai_insight := openai_generate_founder_insight cfg api_response pd }) with
                 change_id := PyIdVal.intv k2 }] },
          ?_, rfl, ?_, ⟨k2, ?_⟩, ?_⟩
  · unfold refresh_profile
    rw [hval]
    simp only [Bool.not_true, Bool.false_eq_true, if_false]
    rw [hex]
    simp only [herr, hproc, hch, hf, if_true]
    rw [hrec1]
    simp only [insight_generate]
    rw [hrec2]
  · exact openai_insight_ne_empty cfg api_response pd hgen
  · simp
  · have hany2 : ({ st with changes := st.changes ++
        [{ Change.to_dict (Change.from_profile_comparison now url ex pd true ("")) with
           change_id := PyIdVal.intv k1 }] } : Storage).profiles.any
        (fun p => p.linkedin_url == url) = true := by
      show st.profiles.any _ = true
      exact any_of_find_some _ _ ex hex
    exact get_profile_after_update_at
      { st with changes := st.changes ++
          [{ Change.to_dict (Change.from_profile_comparison now url ex pd true ("")) with
             change_id := PyIdVal.intv k1 }] } pd now url hurl hany2

def c3_cfg : OpenAIConfig := { api_key := none, available := false }

def c3_ex : PDict :=
  { linkedin_url := ("https://linkedin.com/in/test-founder"), first_name := ("Test"),
    last_name := ("Founder"), full_name := ("Test Founder"),
    current_title := ("Product Manager"), current_company := ("BigTech"),
    previous_title := (""), previous_company := (""), last_checked_date := ("t0"),
    tracking_status := ("Active"), outreach_status := ("Not contacted") }

def c3_st : Storage := { profiles := [c3_ex], changes := [] }

def c3_pd : PDict :=
  { linkedin_url := ("https://linkedin.com/in/test-founder"), first_name := ("Test"),
    last_name := ("Founder"), full_name := ("Test Founder"),
    current_title := ("Founder & CEO"), current_company := ("Test Startup"),
    previous_title := (""), previous_company := (""), last_checked_date := ("d"),
    tracking_status := ("Active"), outreach_status := ("Not contacted") }

/-- C3 witness: the spec's scenario — Product Manager at BigTech refreshed
into Founder & CEO at Test Startup, with the text collaborator unavailable
(deterministic fallback). -/
theorem refresh_founder_change_spec_witness :
    validate_linkedin_url c9_url = true
      ∧ get_profile c3_st c9_url = some c3_ex
      ∧ c9_raw.error = none
      ∧ process_linkedin_profile c9_url c9_raw ("d") = PyRes.ok c3_pd
      ∧ has_changed_roles c3_pd c3_ex = true
      ∧ profile_is_founder c3_pd = true
      ∧ changes_wf c3_st.changes = true
      ∧ (∀ s, (PyRes.exn : PyRes String) = PyRes.ok s → pyStrip s ≠ (""))
      ∧ (∃ c st2,
          refresh_profile c3_cfg c3_st c9_url (FetchResult.returns (some c9_raw))
              PyRes.exn ("d") =
            { st := st2, ok := true,
              msg := ("Detected role change for ") ++ c9_url, change := some c }
            ∧ c.is_founder_change = true
            ∧ c.ai_insight ≠ ("")
            ∧ (∃ k, ({ Change.to_dict c with change_id := PyIdVal.intv k }) ∈ st2.changes)
            ∧ get_profile st2 c9_url = some ({ c3_pd with last_checked_date := ("d") })) :=
  ⟨by decide, by decide, by decide, by decide, by decide, by decide, by decide,
   fun s h => PyRes.noConfusion h,
   refresh_founder_change_spec c3_cfg c3_st c9_url ("d") c9_raw PyRes.exn c3_ex c3_pd
     (by decide) (by decide) (by decide) (by decide) (by decide) (by decide) (by decide)
     (fun s h => PyRes.noConfusion h)⟩

/-! ### Theorems: batch refresh (C4) -/

def c4_fetch : String → FetchResult := fun _ => FetchResult.raises ("boom")

/-- C4 counterexample.  With one tracked profile and the empty identifier
list (n = 0), the source replaces the falsy list by all tracked urls, so the
summary has one detail entry and one failure instead of the zero entries
the claim requires for n = 0. -/
theorem batch_refresh_counterexample :
    ((batch_refresh_profiles c3_cfg c4_fetch (fun _ => PyRes.exn) ("d")
        c3_st []).2.details).length = 1
      ∧ (batch_refresh_profiles c3_cfg c4_fetch (fun _ => PyRes.exn) ("d")
          c3_st []).2.failed = 1
      ∧ (1 : Nat) ≠ 0 :=
  ⟨by decide, by decide, by decide⟩

/-- A refresh whose provider call raises always yields a failure result
(tracked, untracked and invalid identifiers alike). -/
theorem refresh_raises_fails (cfg : OpenAIConfig) (st : Storage) (url m : String)
    (api_response : PyRes String) (now : String) :
    (refresh_profile cfg st url (FetchResult.raises m) api_response now).ok = false := by
  unfold refresh_profile
  cases hval : validate_linkedin_url url with
  | false => simp [hval]
  | true =>
      simp only [hval, Bool.not_true, Bool.false_eq_true, if_false]
      cases hget : get_profile st url with
      | none =>
          unfold add_profile
          simp [hval, hget]
      | some ex => simp

/-- Induction core for the batch properties: detail list mirrors the url
list in order, successes and failures partition it, and an identifier whose
fetch raises is reported as a failure. -/
theorem run_tally_props (cfg : OpenAIConfig) (fetch : String → FetchResult)
    (api_response : String → PyRes String) (now : String) :
    ∀ (urls : List String) (st : Storage),
      ((tally_refresh (urls.zip
          (run_refreshes cfg fetch api_response now st urls).2)).details).map
            (fun d => d.url) = urls
        ∧ (tally_refresh (urls.zip
            (run_refreshes cfg fetch api_response now st urls).2)).success
            + (tally_refresh (urls.zip
                (run_refreshes cfg fetch api_response now st urls).2)).failed
            = urls.length
        ∧ (∀ (i : Nat) (u : String), urls[i]? = some u →
            (∃ m, fetch u = FetchResult.raises m) →
            ∃ d : RefreshDetail, ((tally_refresh (urls.zip
                (run_refreshes cfg fetch api_response now st urls).2)).details)[i]?
                = some d ∧ d.success = false) := by
  intro urls
  induction urls with
  | nil =>
      intro st
      refine ⟨rfl, rfl, ?_⟩
      intro i u hu
      simp at hu
  | cons u rest ih =>
      intro st
      obtain ⟨ih1, ih2, ih3⟩ :=
        ih (refresh_profile cfg st u (fetch u) (api_response u) now).st
      simp only [List.zip] at ih1 ih2 ih3
      simp only [run_refreshes, List.zip, List.zipWith_cons_cons, tally_refresh,
        List.map_cons]
      refine ⟨?_, ?_, ?_⟩
      · rw [ih1]
      · simp only [List.length_cons]
        cases (refresh_profile cfg st u (fetch u) (api_response u) now).ok
        · simp only [Bool.false_eq_true, if_false]
          omega
        · simp only [if_true]
          omega
      · intro i u2 hu2 hraises
        cases i with
        | zero =>
            simp only [List.getElem?_cons_zero, Option.some.injEq] at hu2
            subst hu2
            obtain ⟨m, hm⟩ := hraises
            refine ⟨_, List.getElem?_cons_zero, ?_⟩
            show (refresh_profile cfg st u (fetch u) (api_response u) now).ok = false
            rw [hm]
            exact refresh_raises_fails cfg st u m (api_response u) now
        | succ j =>
            simp only [List.getElem?_cons_succ] at hu2
            obtain ⟨d, hd, hds⟩ := ih3 j u2 hu2 hraises
            exact ⟨d, by simpa [List.getElem?_cons_succ] using hd, hds⟩

/-- C4 amended.  For every NON-EMPTY list of identifiers, batch refresh
yields one detail entry per identifier in the caller-supplied order, the
success and failure counts partition the list, and any identifier whose
provider call raises is reported as a failure without aborting the others.
(An empty or omitted list instead means "refresh all tracked profiles", as
the counterexample shows.) -/
theorem batch_refresh_spec (cfg : OpenAIConfig) (fetch : String → FetchResult)
    (api_response : String → PyRes String) (now : String) (st : Storage)
    (urls : List String) (hne : urls ≠ []) :
    ((batch_refresh_profiles cfg fetch api_response now st urls).2.details).map
        (fun d => d.url) = urls
      ∧ (batch_refresh_profiles cfg fetch api_response now st urls).2.success
          + (batch_refresh_profiles cfg fetch api_response now st urls).2.failed
          = urls.length
      ∧ (∀ (i : Nat) (u : String), urls[i]? = some u →
          (∃ m, fetch u = FetchResult.raises m) →
          ∃ d : RefreshDetail, ((batch_refresh_profiles cfg fetch api_response now st
              urls).2.details)[i]? = some d ∧ d.success = false) := by
  have hbatch : (batch_refresh_profiles cfg fetch api_response now st urls).2 =
      tally_refresh (urls.zip (run_refreshes cfg fetch api_response now st urls).2) := by
    cases urls with
    | nil => exact absurd rfl hne
    | cons a as => rfl
  rw [hbatch]
  exact run_tally_props cfg fetch api_response now urls st

def c4w_urls : List String :=
  [("https://linkedin.com/in/test-founder"), ("https://linkedin.com/in/boom"),
   ("https://linkedin.com/in/other")]

def c4w_fetch : String → FetchResult := fun u =>
  if u == ("https://linkedin.com/in/boom") then FetchResult.raises ("boom")
  else FetchResult.returns (some c9_raw)

/-- C4 witness: three identifiers, the middle one's provider call raises. -/
theorem batch_refresh_spec_witness :
    c4w_urls ≠ []
      ∧ (((batch_refresh_profiles c3_cfg c4w_fetch (fun _ => PyRes.exn) ("d")
            c3_st c4w_urls).2.details).map (fun d => d.url) = c4w_urls
        ∧ (batch_refresh_profiles c3_cfg c4w_fetch (fun _ => PyRes.exn) ("d")
            c3_st c4w_urls).2.success
            + (batch_refresh_profiles c3_cfg c4w_fetch (fun _ => PyRes.exn) ("d")
                c3_st c4w_urls).2.failed
            = c4w_urls.length
        ∧ (∀ (i : Nat) (u : String), c4w_urls[i]? = some u →
            (∃ m, c4w_fetch u = FetchResult.raises m) →
            ∃ d : RefreshDetail, ((batch_refresh_profiles c3_cfg c4w_fetch
                (fun _ => PyRes.exn) ("d")
                c3_st c4w_urls).2.details)[i]? = some d ∧ d.success = false)) :=
  ⟨by decide,
   batch_refresh_spec c3_cfg c4w_fetch (fun _ => PyRes.exn) ("d") c3_st c4w_urls
     (by decide)⟩
